import Mathlib

/-!
Verification of the terminal-gpt conversational-agent orchestrator.

This file shallowly embeds the core of the repository in Lean 4:
* the streaming protocol parser and tool-call accumulator
  (`infrastructure/llm_providers.py`, `_parse_stream_response`),
* the terminal-intent detector (`application/orchestrator.py`,
  `is_terminal_intent`),
* the non-streaming LLM client retry loop (`OpenRouterProvider.generate`
  and `_handle_error`),
* the domain message model with its pydantic validators
  (`domain/models.py`),
* the context summarizer message-selection logic
  (`infrastructure/context_summarizer.py`), and
* the turn orchestrator (`process_user_message`, context-window
  preparation, tool dispatch and conversation-length management).

External effects are made explicit: wall-clock time is a `Nat` parameter,
the LLM backend and the regex library are oracle parameters, exceptions
are `Except` values, and the fire-and-forget event bus is returned as a
list of published events.
-/

namespace TerminalGPT

/-! ## Streaming protocol parser
Embedding of `OpenRouterProvider._parse_stream_response`
(src/terminal_gpt/infrastructure/llm_providers.py, lines 416-517).
A server-sent-event line is abstracted past the JSON layer: `StreamLine`
records exactly the distinctions the Python code makes on a line. -/

/-- One fragment of a `tool_calls` delta, i.e. one element of
`delta["tool_calls"]`. `none` in a field models the key being absent from
the JSON object (so Python `dict.get` falls back to its default). -/
structure ToolCallFragment where
  index : Option Nat
  id : Option String
  type : Option String
  name : Option String
  arguments : Option String
  deriving Repr, DecidableEq

/-- The `choices[0].delta` object of a streamed chunk. -/
structure Delta where
  content : Option String
  toolCalls : Option (List ToolCallFragment)
  deriving Repr, DecidableEq

/-- The parsed JSON payload of one `data: <json>` stream line. -/
structure StreamChunkData where
  model : Option String
  usage : Option String
  delta : Delta
  finishReason : Option String
  deriving Repr, DecidableEq

/-- One line of the chunked response, as the Python loop classifies it:
empty lines, lines without the `data: ` prefix, the `[DONE]` sentinel,
lines whose payload is not valid JSON (skipped), an in-band provider
error object (raised), or an ordinary chunk. -/
inductive StreamLine where
  | empty
  | nonData (raw : String)
  | doneSentinel
  | invalidJson
  | errorObj (message : String)
  | chunk (c : StreamChunkData)
  deriving Repr, DecidableEq

/-- A fully assembled tool call, i.e. one value of `tool_call_buffers`:
`{"id": .., "type": .., "function": {"name": .., "arguments": ..}}`. -/
structure AssembledToolCall where
  id : String
  type : String
  name : String
  arguments : String
  deriving Repr, DecidableEq

/-- The fabricated id `f"call_{idx}_{int(time.time() * 1000)}"`; `now` is
the millisecond timestamp. -/
def syntheticId (idx now : Nat) : String :=
  "call_" ++ toString idx ++ "_" ++ toString now

/-- Buffer entry created on first sight of an index:
id and type are captured from this first fragment (with defaults applied
when the key is absent), name and arguments start empty. -/
def initBuffer (now idx : Nat) (tc : ToolCallFragment) : AssembledToolCall :=
  { id := tc.id.getD (syntheticId idx now)
    type := tc.type.getD "function"
    name := ""
    arguments := "" }

/-- Applying one fragment to an existing buffer entry: the name is a full
overwrite when present, the arguments fragment is string-concatenated. -/
def applyFragment (b : AssembledToolCall) (tc : ToolCallFragment) : AssembledToolCall :=
  let b1 := match tc.name with
    | some n => { b with name := n }
    | none => b
  match tc.arguments with
  | some a => { b1 with arguments := b1.arguments ++ a }
  | none => b1

/-- Update the entry with the given key in place (Python dict item
assignment on an existing key). -/
def updateBuffer (idx : Nat) (tc : ToolCallFragment) :
    List (Nat × AssembledToolCall) → List (Nat × AssembledToolCall)
  | [] => []
  | (j, b) :: rest =>
      if j = idx then (j, applyFragment b tc) :: rest
      else (j, b) :: updateBuffer idx tc rest

/-- Process one tool-call fragment against the buffer map. The map is an
insertion-ordered association list, like a Python dict keyed by the
fragment index (`tc.get("index", 0)`). -/
def accumulateFragment (now : Nat) (bufs : List (Nat × AssembledToolCall))
    (tc : ToolCallFragment) : List (Nat × AssembledToolCall) :=
  let idx := tc.index.getD 0
  match bufs.lookup idx with
  | none => bufs ++ [(idx, applyFragment (initBuffer now idx tc) tc)]
  | some _ => updateBuffer idx tc bufs

/-- Fold a whole fragment sequence into an initially empty buffer map. -/
def accumulateAll (now : Nat) (frags : List ToolCallFragment) :
    List (Nat × AssembledToolCall) :=
  frags.foldl (accumulateFragment now) []

/-- The normalized streamed response chunk (`LLMResponse` in the source). -/
structure LLMResponse where
  content : String
  model : String
  finishReason : Option String
  usage : Option String
  toolCalls : Option (List AssembledToolCall)
  deriving Repr, DecidableEq

/-- Python truthiness of `delta.get("content", "")`. -/
def contentTruthy : Option String → Bool
  | none => false
  | some s => !s.isEmpty

/-- Python truthiness of `delta["tool_calls"]` after the `in` check. -/
def toolCallsTruthy : Option (List ToolCallFragment) → Bool
  | none => false
  | some l => !l.isEmpty

/-- The chunks yielded for one parsed data line, given the buffer state
after accumulating this line's fragments. -/
def chunkOutputs (selfModel : String) (c : StreamChunkData)
    (bufs : List (Nat × AssembledToolCall)) : List LLMResponse :=
  let contentOut : List LLMResponse :=
    if contentTruthy c.delta.content then
      [{ content := c.delta.content.getD ""
         model := c.model.getD selfModel
         finishReason := none
         usage := c.usage
         toolCalls := none }]
    else []
  let finishOut : List LLMResponse :=
    if c.finishReason = some "tool_calls" then
      if bufs.isEmpty then []
      else
        [{ content := ""
           model := c.model.getD selfModel
           finishReason := some "tool_calls"
           usage := c.usage
           toolCalls := some (bufs.map Prod.snd) }]
    else
      match c.finishReason with
      | some fr =>
          if fr = "" then []
          else
            [{ content := ""
               model := c.model.getD selfModel
               finishReason := some fr
               usage := c.usage
               toolCalls := none }]
      | none => []
  contentOut ++ finishOut

/-- The parser loop: returns the chunks yielded in order, and the message
of the `LLMError` that aborted the stream, if any. Malformed JSON lines
and non-`data:` lines are skipped, `[DONE]` ends the stream, an in-band
error object raises immediately. -/
def parseStreamAux (selfModel : String) (now : Nat) :
    List (Nat × AssembledToolCall) → List StreamLine →
    List LLMResponse × Option String
  | _, [] => ([], none)
  | bufs, line :: rest =>
    match line with
    | .empty => parseStreamAux selfModel now bufs rest
    | .nonData _ => parseStreamAux selfModel now bufs rest
    | .doneSentinel => ([], none)
    | .invalidJson => parseStreamAux selfModel now bufs rest
    | .errorObj m => ([], some ("Streaming error: " ++ m))
    | .chunk c =>
        let bufs1 :=
          if toolCallsTruthy c.delta.toolCalls then
            (c.delta.toolCalls.getD []).foldl (accumulateFragment now) bufs
          else bufs
        let res := parseStreamAux selfModel now bufs1 rest
        (chunkOutputs selfModel c bufs1 ++ res.1, res.2)

/-- Embedding of `_parse_stream_response`: consume the line sequence with
an initially empty tool-call buffer map. -/
def parseStreamResponse (selfModel : String) (now : Nat)
    (lines : List StreamLine) : List LLMResponse × Option String :=
  parseStreamAux selfModel now [] lines

/-- A stream line that is a chunk whose `finish_reason` is `tool_calls`. -/
def isFinishToolCallsLine : StreamLine → Bool
  | .chunk c => c.finishReason = some "tool_calls"
  | _ => false

/-! ## Terminal-intent detection
Embedding of `is_terminal_intent` and `TERMINAL_INTENTS`
(src/terminal_gpt/application/orchestrator.py, lines 22-38). The Python
set is modelled as a list; membership and the prefix scan are
order-independent, so the unspecified set iteration order is harmless. -/

/-- The fixed farewell phrase set `TERMINAL_INTENTS`. -/
def TERMINAL_INTENTS : List String :=
  ["quit", "exit", "bye", "goodbye", "thanks", "thank you",
   "no", "stop", "end", "close", "later", "see ya", "cya"]

/-- ASCII lower-casing of one character, as `str.lower` acts on the ASCII
inputs this code base feeds it. -/
def pyLowerChar (c : Char) : Char :=
  if 65 ≤ c.toNat ∧ c.toNat ≤ 90 then Char.ofNat (c.toNat + 32) else c

/-- Python `str.lower()`. -/
def pyLower (s : String) : String :=
  ⟨s.data.map pyLowerChar⟩

/-- Whitespace, as stripped by Python `str.strip()`. -/
def isPyWhitespace (c : Char) : Bool :=
  c = ' ' || c = '\t' || c = '\n' || c = '\r' || c.toNat = 11 || c.toNat = 12

/-- Python `str.strip()`: drop surrounding whitespace. -/
def pyStrip (s : String) : String :=
  ⟨((s.data.dropWhile isPyWhitespace).reverse.dropWhile isPyWhitespace).reverse⟩

/-- Python `str.rstrip("!.")`: drop trailing characters drawn from
the set \x7b exclamation mark, full stop\x7d. -/
def rstripBangDot (s : String) : String :=
  ⟨(s.data.reverse.dropWhile (fun ch => ch = '!' || ch = '.')).reverse⟩

/-- Python `a.startswith(b)`, on the characters of the strings. -/
def pyStartsWith (s p : String) : Bool :=
  p.data.isPrefixOf s.data

/-- `message.lower().strip().rstrip("!.")`. -/
def normalizeIntent (message : String) : String :=
  rstripBangDot (pyStrip (pyLower message))

/-- Embedding of `is_terminal_intent`: exact match against the phrase
set, or the normalized text starts with one of the phrases. -/
def isTerminalIntent (message : String) : Bool :=
  let normalized := normalizeIntent message
  if TERMINAL_INTENTS.contains normalized then true
  else TERMINAL_INTENTS.any (fun intent => pyStartsWith normalized intent)

/-! ## LLM client retry loop
Embedding of `OpenRouterProvider.generate` and
`OpenRouterProvider._handle_error`
(src/terminal_gpt/infrastructure/llm_providers.py, lines 119-247 and
519-558). One HTTP call is abstracted as a `CallOutcome`; the attempt
counter indexes the oracle, so the value at index `i` is the outcome of
the `i`-th HTTP request. Sleeping for the backoff delay has no observable
effect on the returned value and is not modelled. -/

/-- The typed LLM error taxonomy (`domain/exceptions.py`): the retry loop
distinguishes authentication and invalid-request errors (non-retryable),
quota and service-unavailable errors (retryable), and treats content
filter and generic `LLMError` like any unexpected exception. -/
inductive LLMException where
  | authentication (msg : String)
  | invalidRequest (msg : String)
  | quotaExceeded (msg : String) (retryAfter : Option Nat)
  | serviceUnavailable (msg : String)
  | contentFilter (msg : String)
  | generic (msg : String)
  deriving Repr, DecidableEq

/-- `str(e)` for an `LLMError`: its message. -/
def LLMException.message : LLMException → String
  | .authentication m => m
  | .invalidRequest m => m
  | .quotaExceeded m _ => m
  | .serviceUnavailable m => m
  | .contentFilter m => m
  | .generic m => m

/-- What `_handle_error` reads off a non-200 HTTP response: the status
code, the error body's `code` and `message` fields (defaulted to
`unknown` when missing or unparseable), and the parsed `Retry-After`
header if present and numeric. -/
structure HttpErrorInfo where
  statusCode : Nat
  errorCode : String
  errorMessage : String
  retryAfterHeader : Option Nat
  deriving Repr, DecidableEq

/-- Embedding of `_handle_error`: classify a non-200 response and raise
the corresponding typed error. -/
def handleError (r : HttpErrorInfo) : LLMException :=
  if r.statusCode = 401 then
    .authentication ("Authentication failed: " ++ r.errorMessage)
  else if r.statusCode = 429 then
    .quotaExceeded ("Rate limit exceeded: " ++ r.errorMessage) r.retryAfterHeader
  else if 500 ≤ r.statusCode then
    .serviceUnavailable ("OpenRouter service error: " ++ r.errorMessage)
  else if r.statusCode = 400 then
    .invalidRequest ("Invalid request: " ++ r.errorMessage)
  else if r.errorCode = "content_filter" then
    .contentFilter ("Content filter triggered: " ++ r.errorMessage)
  else
    .generic ("OpenRouter API error (" ++ toString r.statusCode ++ "): "
      ++ r.errorMessage)

/-- The successfully parsed result of one non-streaming model call
(`_parse_response` output, restricted to the fields the claims use). -/
structure GenResult where
  content : String
  model : String
  finishReason : Option String
  deriving Repr, DecidableEq

/-- Outcome of one HTTP request inside the retry loop: a 200 response
that parses, a non-200 response handled by `_handle_error`, or any other
exception raised while making or parsing the request. -/
inductive CallOutcome where
  | success (r : GenResult)
  | httpError (e : HttpErrorInfo)
  | exceptionRaised (msg : String)
  deriving Repr, DecidableEq

/-- The retry loop body, mirroring `for attempt in range(max_retries + 1)`
with the retry condition `attempt < max_retries`: `remaining` is
`max_retries - attempt`. Returns the number of HTTP calls performed and
the final result. Authentication and invalid-request errors raise
immediately; quota and service-unavailable errors retry and re-raise the
original error on exhaustion; anything else is wrapped as
`LLMError(f"Unexpected error: \x7be\x7d")`, retried, and the wrapped
error is raised on exhaustion. -/
def generateGo (outcomes : Nat → CallOutcome) :
    Nat → Nat → Nat × Except LLMException GenResult
  | remaining, attempt =>
    match outcomes attempt with
    | .success r => (1, .ok r)
    | .httpError e =>
      match handleError e with
      | .authentication m => (1, .error (.authentication m))
      | .invalidRequest m => (1, .error (.invalidRequest m))
      | .quotaExceeded m ra =>
        match remaining with
        | 0 => (1, .error (.quotaExceeded m ra))
        | r + 1 =>
          let res := generateGo outcomes r (attempt + 1)
          (res.1 + 1, res.2)
      | .serviceUnavailable m =>
        match remaining with
        | 0 => (1, .error (.serviceUnavailable m))
        | r + 1 =>
          let res := generateGo outcomes r (attempt + 1)
          (res.1 + 1, res.2)
      | exn =>
        match remaining with
        | 0 => (1, .error (.generic ("Unexpected error: " ++ exn.message)))
        | r + 1 =>
          let res := generateGo outcomes r (attempt + 1)
          (res.1 + 1, res.2)
    | .exceptionRaised m =>
      match remaining with
      | 0 => (1, .error (.generic ("Unexpected error: " ++ m)))
      | r + 1 =>
        let res := generateGo outcomes r (attempt + 1)
        (res.1 + 1, res.2)

/-- Embedding of `OpenRouterProvider.generate` (an initialized client is
assumed; the payload construction has no effect on the control flow
verified here). Returns the number of HTTP calls made and the result. -/
def generate (maxRetries : Nat) (outcomes : Nat → CallOutcome) :
    Nat × Except LLMException GenResult :=
  generateGo outcomes maxRetries 0

/-! ## Helper functions for stating assembly and stream properties -/

/-- Left-to-right concatenation of a list of strings (the total effect of
repeated `+=` on the `arguments` buffer). -/
def concatAll : List String → String
  | [] => ""
  | s :: rest => s ++ concatAll rest

/-- The fragments addressed to one buffer index. -/
def fragFilter (idx : Nat) (frags : List ToolCallFragment) : List ToolCallFragment :=
  frags.filter (fun tc => tc.index.getD 0 == idx)

/-! ## Predicates and canonical stream shapes for the parser claims -/

/-- A yielded chunk may carry tool calls only if its finish reason is
`tool_calls`. -/
def onlyFlushCarriesTools (r : LLMResponse) : Bool :=
  !r.toolCalls.isSome || decide (r.finishReason = some "tool_calls")

/-- A chunk yielded for an intermediate content delta (no finish reason)
never carries tool calls. -/
def contentChunkNoTools (r : LLMResponse) : Bool :=
  !r.finishReason.isNone || r.toolCalls.isNone

/-- A stream line carrying only a `tool_calls` fragment delta (no
content, no finish reason). -/
def fragmentChunk (fr : List ToolCallFragment) : StreamLine :=
  .chunk { model := none, usage := none
           delta := { content := none, toolCalls := some fr }
           finishReason := none }

/-- The terminal delta `finish_reason == "tool_calls"` with no payload. -/
def finishToolCallsChunk : StreamLine :=
  .chunk { model := none, usage := none
           delta := { content := none, toolCalls := none }
           finishReason := some "tool_calls" }

/-- The single id-less fragment used to witness the synthetic-id claim. -/
def c10Frag : ToolCallFragment :=
  { index := some 0, id := none, type := none, name := some "f",
    arguments := some "x" }

/-! ## Domain message model
Embedding of `Message` and `ConversationState`
(src/terminal_gpt/domain/models.py). Pydantic construction runs the
field validators (content, name, tool_call_id, in declaration order) and
then the model validator; a failed validator raises, modelled as an
`Except` error carrying the validator's message. `add_message` uses
`.copy(update=...)`, which does NOT re-run validators, so it is a plain
record update. Timestamps (`datetime.utcnow()`) are `Nat` values supplied
by the caller. -/

/-- The message roles. -/
inductive Role where
  | system
  | user
  | assistant
  | tool
  deriving Repr, DecidableEq

/-- The Python role string, used in validator error messages. -/
def Role.pyName : Role → String
  | .system => "system"
  | .user => "user"
  | .assistant => "assistant"
  | .tool => "tool"

/-- One tool call as the orchestrator receives it from the LLM response:
`\x7b"id": .., "type": .., "function": \x7b"name": .., "arguments": ..\x7d\x7d`.
`id` is `Option` because `_execute_tool_calls` reads it with
`tool_call.get("id")`. -/
structure ToolCallObj where
  id : Option String
  name : String
  arguments : String
  deriving Repr, DecidableEq

/-- The `Message` domain model. -/
structure Message where
  role : Role
  content : Option String
  name : Option String
  toolCalls : Option (List ToolCallObj)
  toolCallId : Option String
  timestamp : Nat
  deriving Repr, DecidableEq

/-- Python `s[:n]`. -/
def pyTake (n : Nat) (s : String) : String :=
  ⟨s.data.take n⟩

/-- Python `l[-n:]` (note `l[-0:]` is the whole list). -/
def pySliceLast {α : Type} (n : Nat) (l : List α) : List α :=
  if n = 0 then l else l.drop (l.length - n)

/-- Python `needle in hay` for strings. -/
def strContainsAux (needle : List Char) : List Char → Bool
  | [] => needle.isEmpty
  | c :: rest => needle.isPrefixOf (c :: rest) || strContainsAux needle rest

/-- Python `needle in hay` for strings. -/
def strContains (hay needle : String) : Bool :=
  strContainsAux needle.data hay.data

/-- Field validator `validate_content_size`: reject content over 100000
characters, and strip surrounding whitespace of non-empty content. -/
def validateContentSize : Option String → Except String (Option String)
  | none => .ok none
  | some v =>
      if v.length > 100000 then .error "Message content too large (>100KB)"
      else if v = "" then .ok (some v)
      else .ok (some (pyStrip v))

/-- Field validator `validate_name`: a present name must be non-blank and
is stripped. -/
def validateName : Option String → Except String (Option String)
  | none => .ok none
  | some v =>
      if pyStrip v = "" then .error "Name cannot be empty if provided"
      else .ok (some (pyStrip v))

/-- Field validator `validate_tool_call_id`: a present id must be
non-blank and is stripped. -/
def validateToolCallId : Option String → Except String (Option String)
  | none => .ok none
  | some v =>
      if pyStrip v = "" then .error "tool_call_id cannot be empty if provided"
      else .ok (some (pyStrip v))

/-- Python truthiness of an optional string (`None` and `""` are falsy). -/
def optStrTruthy : Option String → Bool
  | none => false
  | some s => !s.isEmpty

/-- Model validator `validate_tool_message_format`. -/
def validateToolMessageFormat (m : Message) : Except String Message :=
  if m.role = Role.assistant ∧ m.toolCalls ≠ none then .ok m
  else if m.role = Role.tool ∧ !optStrTruthy m.toolCallId then
    .error "Tool messages must have a tool_call_id"
  else if m.role = Role.tool ∧ !optStrTruthy m.name then
    .error "Tool messages must have a name (tool name)"
  else if !optStrTruthy m.content then
    .error ("Message content is required for role: " ++ m.role.pyName)
  else .ok m

/-- Constructing a `Message`: field validators in declaration order, then
the model validator. -/
def mkMessage (role : Role) (content name : Option String)
    (toolCalls : Option (List ToolCallObj)) (toolCallId : Option String)
    (timestamp : Nat) : Except String Message := do
  let content1 ← validateContentSize content
  let name1 ← validateName name
  let toolCallId1 ← validateToolCallId toolCallId
  validateToolMessageFormat
    { role := role, content := content1, name := name1, toolCalls := toolCalls,
      toolCallId := toolCallId1, timestamp := timestamp }

/-- The per-session conversation state. -/
structure ConversationState where
  sessionId : String
  messages : List Message
  createdAt : Nat
  updatedAt : Nat
  awaitingUser : Bool
  activeTask : Option String
  toolCycleCount : Nat
  deriving Repr, DecidableEq

/-- One character of the session-id regex class `[a-zA-Z0-9_-]`. -/
def isSessionChar (c : Char) : Bool :=
  c.isAlphanum || c = '-' || c = '_'

/-- Field validator `validate_session_id` (after pydantic's
`min_length=1, max_length=100` field constraints). -/
def validateSessionId (v : String) : Except String String :=
  if v.length < 1 ∨ v.length > 100 then
    .error "Session ID length out of bounds"
  else if v = "" ∨ pyStrip v = "" then .error "Session ID cannot be empty"
  else if !(v.data.all isSessionChar) then
    .error "Session ID contains invalid characters"
  else .ok (pyStrip v)

/-- Non-decreasing timestamps, as `validate_messages` checks them. -/
def messagesChronological : List Message → Bool
  | [] => true
  | [_] => true
  | a :: b :: rest =>
      decide (a.timestamp ≤ b.timestamp) && messagesChronological (b :: rest)

/-- Field validator `validate_messages`. -/
def validateMessages (v : List Message) : Except String (List Message) :=
  if v.isEmpty then .ok v
  else if !(messagesChronological v) then
    .error "Messages must be in chronological order"
  else if v.length > 1000 then .error "Conversation too long (>1000 messages)"
  else .ok v

/-- Constructing a `ConversationState` runs both field validators; the
remaining fields take their defaults. -/
def mkConversationState (sessionId : String) (messages : List Message)
    (now : Nat) : Except String ConversationState := do
  let sid ← validateSessionId sessionId
  let msgs ← validateMessages messages
  .ok { sessionId := sid, messages := msgs, createdAt := now, updatedAt := now,
        awaitingUser := false, activeTask := none, toolCycleCount := 0 }

/-- `add_message`: immutable update through `.copy`, which bypasses the
validators. -/
def ConversationState.addMessage (c : ConversationState) (m : Message)
    (now : Nat) : ConversationState :=
  { c with messages := c.messages ++ [m], updatedAt := now }

/-- Python exceptions the embedded orchestrator can raise: pydantic
validation errors (wrapping a validator's message), `LLMError`s, and
attribute/type errors from accessing a `None` content. -/
inductive PyExn where
  | valueError (msg : String)
  | llmError (msg : String)
  | attributeError (msg : String)
  deriving Repr, DecidableEq

/-! ## Context summarizer
Embedding of `ContextSummarizer`
(src/terminal_gpt/infrastructure/context_summarizer.py), as configured by
the orchestrator: threshold 0.7, max summary length 500, all preserve
flags true. The regex engine (`re.findall`) is an oracle parameter
`rx pattern text`; the model call inside `_generate_summary_text` is an
oracle `Except` value (its errors are caught there and answered with the
heuristic fallback, so they never escape). Accessing `.content` of a
message whose content is `None` raises (`AttributeError`/`TypeError` in
Python), modelled as `PyExn.attributeError`. -/

/-- Read a message's content, raising when it is `None` (Python
`None.lower()` / `re.findall(p, None)` / `None[:n]`). -/
def pyContent (m : Message) : Except PyExn String :=
  match m.content with
  | some s => .ok s
  | none => .error (.attributeError "NoneType has no such attribute")

/-- Keep the first occurrence of each string. Models `list(set(..))`,
whose ordering Python leaves unspecified. -/
def dedupFirstAux (seen : List String) : List String → List String
  | [] => []
  | s :: rest =>
      if seen.contains s then dedupFirstAux seen rest
      else s :: dedupFirstAux (s :: seen) rest

/-- Keep the first occurrence of each string. -/
def dedupFirst (l : List String) : List String :=
  dedupFirstAux [] l

/-- Python `sep.join(parts)`. -/
def joinSep (sep : String) : List String → String
  | [] => ""
  | [s] => s
  | s :: rest => s ++ sep ++ joinSep sep (rest)

/-- The accumulating fields of `_extract_user_preferences` (the
`project_types` and `preferences` entries are never written and the
`system_info` dict only ever receives `performance_issues=True`). -/
structure UserPreferences where
  codingLanguages : List String
  studyTopics : List String
  sportsInterests : List String
  performanceIssues : Bool
  deriving Repr, DecidableEq

/-- The two language/platform regexes of `_extract_user_preferences`. -/
def langPatterns : List String :=
  ["\\b(python|javascript|java|rust|go|c\\+\\+|c#|typescript)\\b",
   "\\b(aws|azure|gcp|kubernetes|docker)\\b"]

/-- The scan of `_extract_user_preferences` over user messages. -/
def extractPrefsGo (rx : String → String → List String) :
    List Message → UserPreferences → Except PyExn UserPreferences
  | [], acc => .ok acc
  | m :: rest, acc =>
      if m.role = Role.user then
        match m.content with
        | none => .error (.attributeError "lower of NoneType")
        | some c0 =>
            let content := pyLower c0
            let langs := (langPatterns.map (fun p => rx p content)).flatten
            let acc1 := { acc with codingLanguages := acc.codingLanguages ++ langs }
            let acc2 :=
              if ["aws", "cka", "certification", "study"].any
                  (fun t => strContains content t) then
                { acc1 with studyTopics := acc1.studyTopics ++ [pyTake 100 content] }
              else acc1
            let acc3 :=
              if ["epl", "nba", "football", "basketball"].any
                  (fun t => strContains content t) then
                { acc2 with sportsInterests :=
                    acc2.sportsInterests ++ [pyTake 100 content] }
              else acc2
            let acc4 :=
              if ["macbook", "m1", "slow", "performance"].any
                  (fun t => strContains content t) then
                { acc3 with performanceIssues := true }
              else acc3
            extractPrefsGo rx rest acc4
      else extractPrefsGo rx rest acc

/-- `_extract_user_preferences`, with the final de-duplication. -/
def extractUserPreferences (rx : String → String → List String)
    (preserve : Bool) (msgs : List Message) : Except PyExn UserPreferences :=
  if !preserve then .ok ⟨[], [], [], false⟩
  else
    match extractPrefsGo rx msgs ⟨[], [], [], false⟩ with
    | .error e => .error e
    | .ok acc =>
        .ok { acc with
              codingLanguages := dedupFirst acc.codingLanguages
              studyTopics := dedupFirst acc.studyTopics
              sportsInterests := dedupFirst acc.sportsInterests }

/-- One entry of the preserved tool-result list. -/
structure ToolResultInfo where
  toolName : Option String
  contentPreview : String
  timestamp : Nat
  deriving Repr, DecidableEq

/-- The `important_indicators` list of `_is_tool_result_important`. -/
def importantIndicators : List String :=
  ["content:", "result:", "score:", "stat:", "path:", "file:",
   "calculation:", "directory:", "list:", "read_file", "write_file"]

/-- `_is_tool_result_important` applied to a content string. -/
def isToolResultImportant (c : String) : Bool :=
  importantIndicators.any (fun ind => strContains (pyLower c) ind)

/-- `_extract_tool_results` (its preserve flag handled by the caller). -/
def extractToolResultsGo : List Message → Except PyExn (List ToolResultInfo)
  | [] => .ok []
  | m :: rest =>
      if m.role = Role.tool then
        match m.content with
        | none => .error (.attributeError "subscript of NoneType")
        | some c =>
            match extractToolResultsGo rest with
            | .error e => .error e
            | .ok tail =>
                if isToolResultImportant c then
                  .ok ({ toolName := m.name, contentPreview := pyTake 200 c,
                         timestamp := m.timestamp } :: tail)
                else .ok tail
      else extractToolResultsGo rest

/-- `_extract_tool_results`. -/
def extractToolResults (preserve : Bool) (msgs : List Message) :
    Except PyExn (List ToolResultInfo) :=
  if !preserve then .ok [] else extractToolResultsGo msgs

/-- The accumulating fields of `_extract_file_context` (`recent_files`
is never written). A file operation records the content preview and the
message timestamp. -/
structure FileContext where
  fileOperations : List (String × Nat)
  importantPaths : List String
  deriving Repr, DecidableEq

/-- The three path regexes of `_extract_file_context`. -/
def pathPatterns : List String :=
  ["([/\\w\\-\\.]+\\.(py|js|ts|java|rust|go|json|md))",
   "(/Users/[^/\\s]+/[\\w/\\-]+)",
   "(src/[\\w/\\-]+\\.\\w+)"]

/-- The scan of `_extract_file_context` over user and assistant
messages. -/
def extractFileContextGo (rx : String → String → List String) :
    List Message → FileContext → Except PyExn FileContext
  | [], acc => .ok acc
  | m :: rest, acc =>
      if m.role = Role.user ∨ m.role = Role.assistant then
        match m.content with
        | none => .error (.attributeError "findall of NoneType")
        | some content =>
            let paths := (pathPatterns.map (fun p => rx p content)).flatten
            let acc1 := { acc with importantPaths := acc.importantPaths ++ paths }
            let acc2 :=
              if ["read file", "write file", "list directory"].any
                  (fun op => strContains (pyLower content) op) then
                { acc1 with fileOperations :=
                    acc1.fileOperations ++ [(pyTake 100 content, m.timestamp)] }
              else acc1
            extractFileContextGo rx rest acc2
      else extractFileContextGo rx rest acc

/-- `_extract_file_context`, with the final path de-duplication. -/
def extractFileContext (rx : String → String → List String) (preserve : Bool)
    (msgs : List Message) : Except PyExn FileContext :=
  if !preserve then .ok ⟨[], []⟩
  else
    match extractFileContextGo rx msgs ⟨[], []⟩ with
    | .error e => .error e
    | .ok acc => .ok { acc with importantPaths := dedupFirst acc.importantPaths }

/-- The accumulating fields of `_extract_technical_context`
(`solutions_attempted` is never written). -/
structure TechnicalContext where
  currentProblems : List String
  codeSnippets : List String
  errorMessages : List String
  deriving Repr, DecidableEq

/-- The four error regexes of `_extract_technical_context`. -/
def errorPatterns : List String :=
  ["Error:\\s*(.+)", "Exception:\\s*(.+)", "Failed:\\s*(.+)", "Cannot\\s*(.+)"]

/-- The scan of `_extract_technical_context` over the supplied window. -/
def extractTechnicalContextGo (rx : String → String → List String) :
    List Message → TechnicalContext → Except PyExn TechnicalContext
  | [], acc => .ok acc
  | m :: rest, acc =>
      match m.content with
      | none => .error (.attributeError "findall of NoneType")
      | some content =>
          let errs := (errorPatterns.map (fun p => rx p content)).flatten
          let acc1 := { acc with errorMessages := acc.errorMessages ++ errs }
          let acc2 :=
            if strContains content "```" then
              { acc1 with codeSnippets := acc1.codeSnippets ++ [pyTake 300 content] }
            else acc1
          let acc3 :=
            if ["debug", "issue", "problem", "help"].any
                (fun k => strContains (pyLower content) k) then
              { acc2 with currentProblems :=
                  acc2.currentProblems ++ [pyTake 150 content] }
            else acc2
          extractTechnicalContextGo rx rest acc3

/-- `_extract_technical_context`: only the last 20 messages are read. -/
def extractTechnicalContext (rx : String → String → List String)
    (msgs : List Message) : Except PyExn TechnicalContext :=
  extractTechnicalContextGo rx (pySliceLast 20 msgs) ⟨[], [], []⟩

/-- The `preserved_context` bundle. -/
structure PreservedContext where
  userPreferences : UserPreferences
  toolResults : List ToolResultInfo
  fileContext : FileContext
  technicalContext : TechnicalContext
  deriving Repr, DecidableEq

/-- Renders the preserved-context bundle to text; stands in for
`json.dumps(preserved_context, indent=2)`, whose exact layout none of the
verified properties depend on (only the summary message content is built
from it). -/
def renderPreservedContext (pc : PreservedContext) : String :=
  "user_preferences: " ++ joinSep ", " pc.userPreferences.codingLanguages
    ++ " / " ++ joinSep ", " pc.userPreferences.studyTopics
    ++ " / " ++ joinSep ", " pc.userPreferences.sportsInterests
    ++ "; tool_results: "
    ++ joinSep ", " (pc.toolResults.map ToolResultInfo.contentPreview)
    ++ "; file_context: " ++ joinSep ", " pc.fileContext.importantPaths
    ++ "; technical_context: "
    ++ joinSep ", " pc.technicalContext.currentProblems
    ++ " / " ++ joinSep ", " pc.technicalContext.errorMessages

/-- The `ContextSummary` object. -/
structure ContextSummary where
  summaryText : String
  preservedContext : PreservedContext
  timestamp : Nat
  originalMessageCount : Nat
  deriving Repr, DecidableEq

/-- Stands in for `timestamp.strftime("%H:%M:%S")`. -/
def fmtTime (n : Nat) : String :=
  toString n

/-- `ContextSummary.to_message`: one synthetic system message; its
construction runs the `Message` validators (and can fail, e.g. on
oversized content). The message timestamp defaults to the current time. -/
def summaryToMessage (s : ContextSummary) (now : Nat) : Except PyExn Message :=
  let content := "Conversation Summary (" ++ fmtTime s.timestamp ++ "):\n\n"
    ++ s.summaryText ++ "\n\n" ++ "Preserved Context:\n"
    ++ renderPreservedContext s.preservedContext
  match mkMessage Role.system (some content) none none none now with
  | .error m => .error (.valueError m)
  | .ok msg => .ok msg

/-- The upper-cased role of the conversation preview. -/
def Role.upperName : Role → String
  | .system => "SYSTEM"
  | .user => "USER"
  | .assistant => "ASSISTANT"
  | .tool => "TOOL"

/-- The conversation-preview lines built by `_generate_summary_text`
before its model call; reads each content (raising on `None`). -/
def buildPreview : List Message → Except PyExn (List String)
  | [] => .ok []
  | m :: rest =>
      match m.content with
      | none => .error (.attributeError "subscript of NoneType")
      | some c =>
          match buildPreview rest with
          | .error e => .error e
          | .ok tail => .ok ((m.role.upperName ++ ": " ++ pyTake 100 c ++ "...") :: tail)

/-- `_generate_fallback_summary`. -/
def fallbackSummary (msgs : List Message) (pc : PreservedContext) :
    Except PyExn String :=
  let part1 : List String :=
    if !pc.userPreferences.codingLanguages.isEmpty then
      ["User interested in: " ++ joinSep ", " pc.userPreferences.codingLanguages]
    else []
  let lastUser := msgs.reverse.find? (fun m => decide (m.role = Role.user))
  let part2 : Except PyExn (List String) :=
    match lastUser with
    | none => .ok []
    | some m =>
        match m.content with
        | none => .error (.attributeError "subscript of NoneType")
        | some c => .ok ["Recent topic: " ++ pyTake 50 c ++ "..."]
  match part2 with
  | .error e => .error e
  | .ok p2 =>
      let part3 : List String :=
        match pc.technicalContext.currentProblems.getLast? with
        | some p => ["Current issue: " ++ pyTake 50 p ++ "..."]
        | none => []
      let summary := joinSep " | " (part1 ++ p2 ++ part3)
      if summary = "" then
        .ok "Conversation summary generated from preserved context."
      else .ok summary

/-- `_generate_summary_text`: the preview is built first (outside the
try), then the model is asked (failures answered with the fallback), and
an over-long summary is truncated to `max_summary_length` and marked. -/
def generateSummaryText (llmOut : Except String String) (maxSummaryLength : Nat)
    (msgs : List Message) (pc : PreservedContext) : Except PyExn String :=
  match buildPreview (pySliceLast 10 msgs) with
  | .error e => .error e
  | .ok _ =>
      match llmOut with
      | .ok content =>
          let s := pyStrip content
          if s.length > maxSummaryLength then
            .ok (pyStrip (pyTake maxSummaryLength s) ++ "...")
          else .ok s
      | .error _ => fallbackSummary msgs pc

/-- Stable insertion keeping an element after all entries with a
timestamp not exceeding its own. -/
def insertByTs (m : Message) : List Message → List Message
  | [] => [m]
  | x :: rest =>
      if m.timestamp < x.timestamp then m :: x :: rest
      else x :: insertByTs m rest

/-- `recent_messages.sort(key=lambda m: m.timestamp)`: Python sorts
stably, and a stable ascending sort is exactly left-to-right stable
insertion. -/
def stableSortByTs (l : List Message) : List Message :=
  l.foldl (fun acc m => insertByTs m acc) []

/-- `_select_recent_messages`: last 10 user messages, last 5 assistant
messages, and all tool messages of the trailing 15-message window,
re-sorted by timestamp. -/
def selectRecentMessages (messages : List Message) : List Message :=
  let recentWindow :=
    if messages.length ≥ 15 then pySliceLast 15 messages else messages
  let userMessages := recentWindow.filter (fun m => decide (m.role = Role.user))
  let assistantMessages :=
    recentWindow.filter (fun m => decide (m.role = Role.assistant))
  let toolMessages := recentWindow.filter (fun m => decide (m.role = Role.tool))
  stableSortByTs
    (pySliceLast 10 userMessages ++ pySliceLast 5 assistantMessages ++ toolMessages)

/-- `should_summarize`: never under 20 messages; otherwise the ratio
`total / 100` (the hardcoded `max_length`) must reach the threshold 0.7
that the orchestrator configures. `total/100 >= 0.7` is computed here as
`700 <= total * 10`, which agrees with the float comparison at every
integer total. -/
def shouldSummarize (messages : List Message) : Bool :=
  if messages.length < 20 then false
  else decide (700 ≤ messages.length * 10)

/-- `summarize_conversation`: extract the four context categories,
produce the summary text, and select the recent messages to keep. -/
def summarizeConversation (rx : String → String → List String)
    (llmOut : Except String String) (now : Nat) (conv : ConversationState) :
    Except PyExn (ContextSummary × List Message) :=
  match extractUserPreferences rx true conv.messages with
  | .error e => .error e
  | .ok prefs =>
    match extractToolResults true conv.messages with
    | .error e => .error e
    | .ok toolRes =>
      match extractFileContext rx true conv.messages with
      | .error e => .error e
      | .ok fileCtx =>
        match extractTechnicalContext rx conv.messages with
        | .error e => .error e
        | .ok techCtx =>
          let pc : PreservedContext := ⟨prefs, toolRes, fileCtx, techCtx⟩
          match generateSummaryText llmOut 500 conv.messages pc with
          | .error e => .error e
          | .ok summaryText =>
              .ok (⟨summaryText, pc, now, conv.messages.length⟩,
                   selectRecentMessages conv.messages)

/-! ## Turn orchestrator
Embedding of `ConversationOrchestrator`
(src/terminal_gpt/application/orchestrator.py). The LLM provider is an
oracle `llm : Nat → LLMOutcome` giving the outcome of the i-th `generate`
call of the turn (the provider only ever raises `LLMError` subclasses,
all of which the loop's `except LLMError` catches); the plugin registry
is an oracle `exec : name → arguments → ExecOutcome` folding in
`json.loads` of the arguments and `json.dumps` of the result. Events are
returned as a list; publishing is fire-and-forget in the source. -/

/-- The orchestrator configuration: constructor arguments plus the
`get_system_prompt()` result used by `start_conversation`. -/
structure OrchConfig where
  maxConversationLength : Nat
  slidingWindowSize : Nat
  enableSummarization : Bool
  systemPrompt : Option String
  deriving Repr, DecidableEq

/-- One formatted message of the LLM request payload; `none` models an
absent key (`content` is always present, possibly null). -/
structure FormattedMessage where
  role : Role
  content : Option String
  toolCalls : Option (List ToolCallObj)
  toolCallId : Option String
  name : Option String
  deriving Repr, DecidableEq

/-- The sliding-window selection of `_prepare_context_messages`: all
messages when within the window, otherwise every system message followed
by the `sliding_window_size` most recent non-system messages (via the
Python slice `regular_messages[-w:]`). -/
def selectContextMessages (w : Nat) (msgs : List Message) : List Message :=
  if msgs.length ≤ w then msgs
  else
    msgs.filter (fun m => decide (m.role = Role.system))
      ++ pySliceLast w (msgs.filter (fun m => decide (¬ m.role = Role.system)))

/-- The per-message formatting of `_prepare_context_messages`:
`tool_calls` only on assistant messages that have them, `tool_call_id`
and `name` only on tool messages when truthy. -/
def formatMessage (m : Message) : FormattedMessage :=
  { role := m.role
    content := m.content
    toolCalls :=
      match m.role, m.toolCalls with
      | Role.assistant, some tcs => some tcs
      | _, _ => none
    toolCallId :=
      match m.role, m.toolCallId with
      | Role.tool, some s => if s = "" then none else some s
      | _, _ => none
    name :=
      match m.role, m.name with
      | Role.tool, some s => if s = "" then none else some s
      | _, _ => none }

/-- `_prepare_context_messages`. -/
def prepareContextMessages (w : Nat) (conv : ConversationState) :
    List FormattedMessage :=
  (selectContextMessages w conv.messages).map formatMessage

/-- The outcome of dispatching one tool call: the serialized result on
success, a `PluginError`, or any other exception (including a
`json.loads` failure on the arguments). -/
inductive ExecOutcome where
  | ok (resultJson : String)
  | pluginFailure (msg : String)
  | unexpected (msg : String)
  deriving Repr, DecidableEq

/-- The structured JSON error body
`json.dumps(\x7b"error": .., "plugin_name": ..\x7d, indent=2)`. -/
def errorResultJson (msg toolName : String) : String :=
  "\x7b\n  \"error\": \"" ++ msg ++ "\",\n  \"plugin_name\": \"" ++ toolName
    ++ "\"\n\x7d"

/-- One entry of the `_execute_tool_calls` result list. -/
structure ToolResult where
  toolName : String
  toolCallId : String
  result : String
  success : Bool
  deriving Repr, DecidableEq

/-- `_execute_tool_calls`: a missing or empty id raises `LLMError`
immediately; plugin and unexpected failures become error result bodies
and the loop continues. -/
def executeToolCalls (exec : String → String → ExecOutcome) :
    List ToolCallObj → Except PyExn (List ToolResult)
  | [] => .ok []
  | tc :: rest =>
      match tc.id with
      | none =>
          .error (.llmError
            ("tool_call_id is required but missing for tool: " ++ tc.name))
      | some tid =>
          if tid = "" then
            .error (.llmError
              ("tool_call_id is required but missing for tool: " ++ tc.name))
          else
            let res : ToolResult :=
              match exec tc.name tc.arguments with
              | .ok rj =>
                  { toolName := tc.name, toolCallId := tid, result := rj,
                    success := true }
              | .pluginFailure m =>
                  { toolName := tc.name, toolCallId := tid,
                    result := errorResultJson m tc.name, success := false }
              | .unexpected m =>
                  { toolName := tc.name, toolCallId := tid,
                    result := errorResultJson
                      ("Unexpected error in " ++ tc.name ++ ": " ++ m) tc.name,
                    success := false }
            match executeToolCalls exec rest with
            | .error e => .error e
            | .ok rs => .ok (res :: rs)

/-- The outcome of one `llm_provider.generate` call of the turn. -/
inductive LLMOutcome where
  | result (content : String) (toolCalls : Option (List ToolCallObj))
  | failure (msg : String)
  deriving Repr, DecidableEq

/-- The canned apology returned when an `LLMError` is caught. -/
def apologyReply : String :=
  "I apologize, but I'm having trouble generating a response right now. Please try again."

/-- The degraded reply after `max_iterations` is exhausted. -/
def tooComplexReply : String :=
  "I'm sorry, but this conversation has become too complex. Please start a new conversation."

/-- Append the tool-result messages to the (loop-local) conversation.
The source builds each as `Message(role="tool", content=result,
name=tool_name)` — without a `tool_call_id` — so construction runs the
`Message` validators on exactly those fields. -/
def appendToolMessages (now : Nat) :
    ConversationState → List ToolResult → Except PyExn ConversationState
  | conv, [] => .ok conv
  | conv, r :: rest =>
      match mkMessage Role.tool (some r.result) (some r.toolName) none none now with
      | .error m => .error (.valueError m)
      | .ok msg => appendToolMessages now (conv.addMessage msg now) rest

/-- The `_generate_assistant_response` loop: `fuel` counts the remaining
iterations of `while current_iteration < max_iterations`, `callIdx`
indexes the LLM oracle. `LLMError`s (from the provider or from
`_execute_tool_calls`) are caught and answered with the apology; any
other exception — in particular a pydantic validation error from the
tool-message construction — propagates. An empty `tool_calls` list is
falsy and treated as no tool calls. -/
def generateAssistantGo (llm : Nat → LLMOutcome)
    (exec : String → String → ExecOutcome) (now : Nat) :
    Nat → Nat → ConversationState → Except PyExn String
  | 0, _, _ => .ok tooComplexReply
  | fuel + 1, callIdx, conv =>
      match llm callIdx with
      | .failure _ => .ok apologyReply
      | .result content toolCalls =>
          match toolCalls with
          | some (tc :: tcs) =>
              match executeToolCalls exec (tc :: tcs) with
              | .error (.llmError _) => .ok apologyReply
              | .error e => .error e
              | .ok results =>
                  match appendToolMessages now conv results with
                  | .error e => .error e
                  | .ok conv2 => generateAssistantGo llm exec now fuel (callIdx + 1) conv2
          | _ => .ok content

/-- `_generate_assistant_response` with its `max_iterations = 5`. -/
def generateAssistantResponse (llm : Nat → LLMOutcome)
    (exec : String → String → ExecOutcome) (now : Nat)
    (conv : ConversationState) : Except PyExn String :=
  generateAssistantGo llm exec now 5 0 conv

/-- `truncateConversation`: the fallback `keep_count = min(max, len)` and
Python slice `messages[-keep_count:]`, then a validated
`ConversationState` construction. -/
def truncateConversation (maxLen : Nat) (conv : ConversationState)
    (now : Nat) : Except PyExn ConversationState :=
  let keepCount := min maxLen conv.messages.length
  match mkConversationState conv.sessionId (pySliceLast keepCount conv.messages) now with
  | .error m => .error (.valueError m)
  | .ok st => .ok st

/-- The body of the `try` block of `_manage_conversation_length` when
summarization is enabled: check the threshold, summarize, convert the
summary to a system message, and construct the summarized state. Any
error here is caught by the caller. -/
def summarizationAttempt (rx : String → String → List String)
    (llmOut : Except String String) (now : Nat) (conv : ConversationState) :
    Except PyExn (Option ConversationState) :=
  if shouldSummarize conv.messages then
    match summarizeConversation rx llmOut now conv with
    | .error e => .error e
    | .ok (summary, recent) =>
        match summaryToMessage summary now with
        | .error e => .error e
        | .ok summaryMsg =>
            match mkConversationState conv.sessionId (summaryMsg :: recent) now with
            | .error m => .error (.valueError m)
            | .ok st => .ok (some st)
  else .ok none

/-- `_manage_conversation_length`: nothing to do within the limit;
otherwise try summarization when enabled (any exception falling back),
and truncate when summarization is disabled, not triggered, or failed. -/
def manageConversationLength (cfg : OrchConfig)
    (rx : String → String → List String) (llmOut : Except String String)
    (now : Nat) (conv : ConversationState) : Except PyExn ConversationState :=
  if conv.messages.length ≤ cfg.maxConversationLength then .ok conv
  else
    let viaSummary : Option ConversationState :=
      if cfg.enableSummarization then
        match summarizationAttempt rx llmOut now conv with
        | .ok r => r
        | .error _ => none
      else none
    match viaSummary with
    | some st => .ok st
    | none => truncateConversation cfg.maxConversationLength conv now

/-- The conversation-level events the orchestrator publishes. -/
inductive Event where
  | userMessage (content : String)
  | assistantResponse (content : String)
  | conversationError (e : PyExn)
  deriving Repr, DecidableEq

/-- `start_conversation` for a fresh session id: an empty validated
state, plus the system-prompt message when one is configured (Python
truthiness: an empty prompt is skipped). -/
def startConversation (cfg : OrchConfig) (sessionId : String) (now : Nat) :
    Except PyExn ConversationState :=
  match mkConversationState sessionId [] now with
  | .error m => .error (.valueError m)
  | .ok conv =>
      match cfg.systemPrompt with
      | none => .ok conv
      | some p =>
          if p = "" then .ok conv
          else
            match mkMessage Role.system (some p) none none none now with
            | .error m => .error (.valueError m)
            | .ok msg => .ok (conv.addMessage msg now)

/-- `process_user_message`: get or create the conversation, append the
validated user message, generate the assistant response (possibly via
tool cycles), append it, manage the conversation length, and return the
reply with the final stored state. The surrounding
`except Exception` publishes a conversation-error event and RE-RAISES, so
a failure is returned as the error together with the published events. -/
def processUserMessage (cfg : OrchConfig) (conv0 : Option ConversationState)
    (sessionId : String) (userContent : String) (llm : Nat → LLMOutcome)
    (exec : String → String → ExecOutcome)
    (rx : String → String → List String) (summaryLLM : Except String String)
    (now : Nat) : Except PyExn (String × ConversationState) × List Event :=
  match (match conv0 with
         | some c => Except.ok c
         | none => startConversation cfg sessionId now) with
  | .error e => (.error e, [Event.conversationError e])
  | .ok conv =>
      match mkMessage Role.user (some userContent) none none none now with
      | .error m =>
          (.error (.valueError m), [Event.conversationError (.valueError m)])
      | .ok userMsg =>
          let conv1 := conv.addMessage userMsg now
          match generateAssistantResponse llm exec now conv1 with
          | .error e =>
              (.error e, [Event.userMessage userContent, Event.conversationError e])
          | .ok responseContent =>
              match mkMessage Role.assistant (some responseContent) none none none now with
              | .error m =>
                  (.error (.valueError m),
                   [Event.userMessage userContent,
                    Event.conversationError (.valueError m)])
              | .ok asstMsg =>
                  let conv2 := conv1.addMessage asstMsg now
                  match manageConversationLength cfg rx summaryLLM now conv2 with
                  | .error e =>
                      (.error e,
                       [Event.userMessage userContent,
                        Event.assistantResponse responseContent,
                        Event.conversationError e])
                  | .ok conv3 =>
                      (.ok (responseContent, conv3),
                       [Event.userMessage userContent,
                        Event.assistantResponse responseContent])

/-! ## Concrete instances used by the claims -/

/-- A regex oracle finding nothing (no pattern matches in the inputs the
claims use). -/
def rxNone : String → String → List String :=
  fun _ _ => []

/-- A user message with content `x` at time 0. -/
def userMsgX : Message :=
  { role := Role.user, content := some "x", name := none, toolCalls := none,
    toolCallId := none, timestamp := 0 }

/-- An assistant message with content `x` at time 0. -/
def asstMsgX : Message :=
  { role := Role.assistant, content := some "x", name := none, toolCalls := none,
    toolCallId := none, timestamp := 0 }

/-- An assistant tool-call message with `content = None` at time 0 (as the
streaming path stores them). -/
def asstMsgNoneContent : Message :=
  { role := Role.assistant, content := none, name := none,
    toolCalls := some [{ id := some "i", name := "f", arguments := "a" }],
    toolCallId := none, timestamp := 0 }

/-- A 101-message conversation history whose trailing 15-message window
is one assistant message, eleven user messages, and three assistant
messages. -/
def c7Msgs : List Message :=
  List.replicate 86 userMsgX ++ [asstMsgX] ++ List.replicate 11 userMsgX
    ++ [asstMsgX, asstMsgX, asstMsgX]

/-- The conversation state over `c7Msgs`. -/
def c7Conv : ConversationState :=
  { sessionId := "s", messages := c7Msgs, createdAt := 0, updatedAt := 0,
    awaitingUser := false, activeTask := none, toolCycleCount := 0 }

/-- The state produced by length management on `c7Conv` with
summarization enabled (extracted definitionally from the run). -/
def c7Result : ConversationState :=
  (manageConversationLength
      { maxConversationLength := 100
        slidingWindowSize := 50
        enableSummarization := true
        systemPrompt := none }
      rxNone (.ok "s") 0 c7Conv).toOption.getD c7Conv

/-- A 70-message conversation whose last message is an assistant
tool-call message with `content = None`. -/
def c9Msgs : List Message :=
  List.replicate 69 userMsgX ++ [asstMsgNoneContent]

/-- The conversation state over `c9Msgs`. -/
def c9Conv : ConversationState :=
  { sessionId := "s", messages := c9Msgs, createdAt := 0, updatedAt := 0,
    awaitingUser := false, activeTask := none, toolCycleCount := 0 }

/-- A one-message conversation used against the window selection. -/
def c8Conv : ConversationState :=
  { sessionId := "s", messages := [userMsgX], createdAt := 0, updatedAt := 0,
    awaitingUser := false, activeTask := none, toolCycleCount := 0 }

/-! ## Lemmas about the tool-call accumulator and the parser output -/

theorem lookup_updateBuffer_self (idx : Nat) (tc : ToolCallFragment) :
    ∀ bufs : List (Nat × AssembledToolCall),
      (updateBuffer idx tc bufs).lookup idx = (bufs.lookup idx).map (applyFragment · tc)
  | [] => rfl
  | (j, b) :: rest => by
      by_cases h : j = idx
      · subst h
        have hbeq : (j == j) = true := by simp
        simp only [updateBuffer, if_pos rfl, List.lookup, hbeq]
        rfl
      · have hbeq : (idx == j) = false := by simp [Ne.symm h]
        simp only [updateBuffer, if_neg h, List.lookup, hbeq,
          lookup_updateBuffer_self idx tc rest]

theorem lookup_updateBuffer_ne (idx j : Nat) (tc : ToolCallFragment) (hj : j ≠ idx) :
    ∀ bufs : List (Nat × AssembledToolCall),
      (updateBuffer idx tc bufs).lookup j = bufs.lookup j
  | [] => rfl
  | (k, b) :: rest => by
      by_cases h : k = idx
      · subst h
        have hbeq : (j == k) = false := by simp [hj]
        simp only [updateBuffer, if_pos rfl, List.lookup, hbeq]
      · cases hbeq : (j == k) with
        | true => simp only [updateBuffer, if_neg h, List.lookup, hbeq]
        | false =>
            simp only [updateBuffer, if_neg h, List.lookup, hbeq,
              lookup_updateBuffer_ne idx j tc hj rest]

theorem lookup_append_singleton_ne (idx j : Nat) (b : AssembledToolCall) (hj : j ≠ idx) :
    ∀ bufs : List (Nat × AssembledToolCall),
      (bufs ++ [(idx, b)]).lookup j = bufs.lookup j
  | [] => by
      have hbeq : (j == idx) = false := by simp [hj]
      simp only [List.nil_append, List.lookup, hbeq]
  | (k, c) :: rest => by
      cases hbeq : (j == k) with
      | true => simp only [List.cons_append, List.lookup, hbeq]
      | false =>
          simp only [List.cons_append, List.lookup, hbeq]
          exact lookup_append_singleton_ne idx j b hj rest

theorem lookup_append_singleton_self (idx : Nat) (b : AssembledToolCall) :
    ∀ bufs : List (Nat × AssembledToolCall), bufs.lookup idx = none →
      (bufs ++ [(idx, b)]).lookup idx = some b
  | [] => by
      intro _
      have hbeq : (idx == idx) = true := by simp
      simp only [List.nil_append, List.lookup, hbeq]
  | (k, c) :: rest => by
      intro h
      cases hbeq : (idx == k) with
      | true =>
          exfalso
          simp only [List.lookup, hbeq] at h
          exact Option.noConfusion h
      | false =>
          simp only [List.lookup, hbeq] at h
          simp only [List.cons_append, List.lookup, hbeq]
          exact lookup_append_singleton_self idx b rest h

theorem lookup_accumulateFragment_self (now : Nat) (tc : ToolCallFragment)
    (bufs : List (Nat × AssembledToolCall)) :
    (accumulateFragment now bufs tc).lookup (tc.index.getD 0) =
      some (match bufs.lookup (tc.index.getD 0) with
            | some b => applyFragment b tc
            | none => applyFragment (initBuffer now (tc.index.getD 0) tc) tc) := by
  unfold accumulateFragment
  cases h : bufs.lookup (tc.index.getD 0) with
  | none =>
      simp only [h]
      exact lookup_append_singleton_self _ _ bufs h
  | some b =>
      simp only [h]
      rw [lookup_updateBuffer_self, h]
      rfl

theorem lookup_accumulateFragment_ne (now : Nat) (tc : ToolCallFragment)
    (bufs : List (Nat × AssembledToolCall)) (j : Nat) (hj : j ≠ tc.index.getD 0) :
    (accumulateFragment now bufs tc).lookup j = bufs.lookup j := by
  unfold accumulateFragment
  cases h : bufs.lookup (tc.index.getD 0) with
  | none =>
      simp only [h]
      exact lookup_append_singleton_ne _ _ _ hj bufs
  | some b =>
      simp only [h]
      exact lookup_updateBuffer_ne _ _ _ hj bufs

/-- Per-index characterization of folding a fragment sequence into the
buffer map: only the fragments addressed to the index matter, applied in
order to the existing entry, or to a fresh entry initialized from the
first of them. -/
theorem lookup_foldl_accumulateFragment (now : Nat) :
    ∀ (frags : List ToolCallFragment) (bufs : List (Nat × AssembledToolCall)) (idx : Nat),
      (frags.foldl (accumulateFragment now) bufs).lookup idx =
        match bufs.lookup idx, fragFilter idx frags with
        | some b, fs => some (fs.foldl applyFragment b)
        | none, [] => none
        | none, f :: fs => some ((f :: fs).foldl applyFragment (initBuffer now idx f))
  | [], bufs, idx => by
      cases h : bufs.lookup idx <;> simp [fragFilter, h]
  | tc :: rest, bufs, idx => by
      by_cases hi : tc.index.getD 0 = idx
      · have hbeq : (tc.index.getD 0 == idx) = true := by simp [hi]
        have hfilter : fragFilter idx (tc :: rest) = tc :: fragFilter idx rest := by
          simp only [fragFilter, List.filter_cons, hbeq, if_pos]
        have hstep := lookup_accumulateFragment_self now tc bufs
        rw [hi] at hstep
        cases h : bufs.lookup idx with
        | some b =>
            simp only [h] at hstep
            have hrec := lookup_foldl_accumulateFragment now rest
              (accumulateFragment now bufs tc) idx
            rw [hstep] at hrec
            simp only [List.foldl_cons, hrec, hfilter, h, List.foldl_cons]
        | none =>
            simp only [h] at hstep
            have hrec := lookup_foldl_accumulateFragment now rest
              (accumulateFragment now bufs tc) idx
            rw [hstep] at hrec
            simp only [List.foldl_cons, hrec, hfilter, h, List.foldl_cons]
      · have hbeq : (tc.index.getD 0 == idx) = false := by simp [hi]
        have hfilter : fragFilter idx (tc :: rest) = fragFilter idx rest := by
          simp only [fragFilter, List.filter_cons, hbeq]
          exact if_neg (by simp)
        have hstep := lookup_accumulateFragment_ne now tc bufs idx (Ne.symm hi)
        have hrec := lookup_foldl_accumulateFragment now rest
          (accumulateFragment now bufs tc) idx
        rw [hstep] at hrec
        simp only [List.foldl_cons, hrec, hfilter]

theorem getLastD_cons {α : Type} (n x : α) (L : List α) :
    ((n :: L).getLast?).getD x = (L.getLast?).getD n := by
  cases L with
  | nil => rfl
  | cons m M =>
      rw [List.getLast?_cons_cons]
      cases h : (m :: M).getLast? with
      | none => simp [List.getLast?] at h
      | some y => rfl

theorem string_append_empty (s : String) : s ++ "" = s := by
  cases s with
  | mk data => show String.mk (data ++ []) = String.mk data
               rw [List.append_nil]

theorem string_append_assoc (a b c : String) : (a ++ b) ++ c = a ++ (b ++ c) := by
  cases a with
  | mk xa => cases b with
    | mk xb => cases c with
      | mk xc => show String.mk ((xa ++ xb) ++ xc) = String.mk (xa ++ (xb ++ xc))
                 rw [List.append_assoc]

/-- Field-wise characterization of applying a fragment sequence to one
buffer entry: id and type never change, the name is the last name value
received (if any), the arguments are the concatenation of all fragments. -/
theorem foldl_applyFragment_fields :
    ∀ (fs : List ToolCallFragment) (b : AssembledToolCall),
      (fs.foldl applyFragment b).id = b.id ∧
      (fs.foldl applyFragment b).type = b.type ∧
      (fs.foldl applyFragment b).name
        = ((fs.filterMap ToolCallFragment.name).getLast?).getD b.name ∧
      (fs.foldl applyFragment b).arguments
        = b.arguments ++ concatAll (fs.filterMap ToolCallFragment.arguments)
  | [], b => by
      refine ⟨rfl, rfl, rfl, ?_⟩
      simp [concatAll, string_append_empty]
  | tc :: fs, b => by
      obtain ⟨hid, hty, hname, hargs⟩ := foldl_applyFragment_fields fs (applyFragment b tc)
      have happ_name : (applyFragment b tc).name = (tc.name).getD b.name := by
        unfold applyFragment
        cases tc.name <;> cases tc.arguments <;> rfl
      have happ_args : (applyFragment b tc).arguments
          = b.arguments ++ (tc.arguments).getD "" := by
        unfold applyFragment
        cases tc.name <;> cases tc.arguments <;>
          simp [string_append_empty]
      have happ_id : (applyFragment b tc).id = b.id := by
        unfold applyFragment
        cases tc.name <;> cases tc.arguments <;> rfl
      have happ_ty : (applyFragment b tc).type = b.type := by
        unfold applyFragment
        cases tc.name <;> cases tc.arguments <;> rfl
      refine ⟨by rw [List.foldl_cons, hid, happ_id],
              by rw [List.foldl_cons, hty, happ_ty], ?_, ?_⟩
      · rw [List.foldl_cons, hname, happ_name]
        cases hn : tc.name with
        | none => simp [List.filterMap_cons, hn]
        | some n => simp [List.filterMap_cons, hn, getLastD_cons]
      · rw [List.foldl_cons, hargs, happ_args]
        cases ha : tc.arguments with
        | none => simp [List.filterMap_cons, ha, string_append_empty]
        | some a =>
            simp only [List.filterMap_cons, ha, Option.getD_some, concatAll]
            rw [string_append_assoc]

theorem string_empty_append (s : String) : "" ++ s = s := by
  cases s with
  | mk data => show String.mk ([] ++ data) = String.mk data
               rw [List.nil_append]

/-- Full per-index characterization of the accumulated buffer map: the
entry for an index exists iff some fragment addressed it; its id and type
come from the first such fragment (with the synthetic id and the
`function` default when absent), its name is the last name received, and
its arguments are the in-order concatenation of all argument fragments. -/
theorem accumulateAll_lookup_eq (now : Nat) (frags : List ToolCallFragment) (idx : Nat) :
    (accumulateAll now frags).lookup idx =
      (fragFilter idx frags).head?.map (fun first =>
        { id := first.id.getD (syntheticId idx now)
          type := first.type.getD "function"
          name := ((fragFilter idx frags).filterMap ToolCallFragment.name).getLast?.getD ""
          arguments :=
            concatAll ((fragFilter idx frags).filterMap ToolCallFragment.arguments) }) := by
  have h := lookup_foldl_accumulateFragment now frags [] idx
  have hnil : (([] : List (Nat × AssembledToolCall)).lookup idx) = none := rfl
  rw [hnil] at h
  unfold accumulateAll
  cases hf : fragFilter idx frags with
  | nil =>
      rw [hf] at h
      simp only [h]
      rfl
  | cons f fs =>
      rw [hf] at h
      have h2 : (frags.foldl (accumulateFragment now) []).lookup idx
          = some ((f :: fs).foldl applyFragment (initBuffer now idx f)) := h
      obtain ⟨hid, hty, hname, hargs⟩ :=
        foldl_applyFragment_fields (f :: fs) (initBuffer now idx f)
      have hval : (f :: fs).foldl applyFragment (initBuffer now idx f) =
          { id := f.id.getD (syntheticId idx now)
            type := f.type.getD "function"
            name := (((f :: fs).filterMap ToolCallFragment.name).getLast?).getD ""
            arguments :=
              concatAll ((f :: fs).filterMap ToolCallFragment.arguments) } := by
        have heta : (f :: fs).foldl applyFragment (initBuffer now idx f) =
            { id := ((f :: fs).foldl applyFragment (initBuffer now idx f)).id
              type := ((f :: fs).foldl applyFragment (initBuffer now idx f)).type
              name := ((f :: fs).foldl applyFragment (initBuffer now idx f)).name
              arguments :=
                ((f :: fs).foldl applyFragment (initBuffer now idx f)).arguments } := rfl
        rw [heta, hid, hty, hname, hargs]
        show ({ id := (initBuffer now idx f).id, type := (initBuffer now idx f).type,
                name := _, arguments := _ } : AssembledToolCall) = _
        simp only [initBuffer, string_empty_append]
      rw [h2, hval]
      rfl

theorem syntheticId_ne_empty (idx now : Nat) : syntheticId idx now ≠ "" := by
  intro h
  have hlen := congrArg String.length h
  unfold syntheticId at hlen
  rw [String.length_append, String.length_append, String.length_append] at hlen
  have h5 : ("call_" : String).length = 5 := rfl
  have h0 : ("" : String).length = 0 := rfl
  rw [h5, h0] at hlen
  omega

theorem chunkOutputs_props (selfModel : String) (c : StreamChunkData)
    (bufs : List (Nat × AssembledToolCall)) :
    ((chunkOutputs selfModel c bufs).filter (fun r => r.toolCalls.isSome)).length
      ≤ (if c.finishReason = some "tool_calls" then 1 else 0)
    ∧ (chunkOutputs selfModel c bufs).all onlyFlushCarriesTools = true
    ∧ (chunkOutputs selfModel c bufs).all contentChunkNoTools = true := by
  unfold chunkOutputs
  rcases hfr : c.finishReason with _ | fr
  · by_cases hct : contentTruthy c.delta.content <;>
      simp [hfr, hct, onlyFlushCarriesTools, contentChunkNoTools]
  · by_cases hfr2 : fr = "tool_calls"
    · subst hfr2
      by_cases hb : bufs.isEmpty <;> by_cases hct : contentTruthy c.delta.content <;>
        simp [hfr, hb, hct, onlyFlushCarriesTools, contentChunkNoTools]
    · by_cases hfr3 : fr = ""
      · subst hfr3
        by_cases hct : contentTruthy c.delta.content <;>
          simp [hfr, hfr2, hct, onlyFlushCarriesTools, contentChunkNoTools]
      · by_cases hct : contentTruthy c.delta.content <;>
          simp [hfr, hfr2, hfr3, hct, onlyFlushCarriesTools, contentChunkNoTools]

theorem parseStreamAux_props (selfModel : String) (now : Nat) :
    ∀ (lines : List StreamLine) (bufs : List (Nat × AssembledToolCall)),
      (((parseStreamAux selfModel now bufs lines).1.filter
          (fun r => r.toolCalls.isSome)).length
        ≤ (lines.filter isFinishToolCallsLine).length)
      ∧ ((parseStreamAux selfModel now bufs lines).1.all onlyFlushCarriesTools = true)
      ∧ ((parseStreamAux selfModel now bufs lines).1.all contentChunkNoTools = true)
  | [], bufs => by simp [parseStreamAux]
  | line :: rest, bufs => by
      cases line with
      | empty =>
          simpa [parseStreamAux, isFinishToolCallsLine] using
            parseStreamAux_props selfModel now rest bufs
      | nonData raw =>
          simpa [parseStreamAux, isFinishToolCallsLine] using
            parseStreamAux_props selfModel now rest bufs
      | doneSentinel => simp [parseStreamAux]
      | invalidJson =>
          simpa [parseStreamAux, isFinishToolCallsLine] using
            parseStreamAux_props selfModel now rest bufs
      | errorObj m => simp [parseStreamAux]
      | chunk c =>
          have hbufs1 :
              (parseStreamAux selfModel now bufs (.chunk c :: rest)).1 =
                chunkOutputs selfModel c
                  (if toolCallsTruthy c.delta.toolCalls then
                    (c.delta.toolCalls.getD []).foldl (accumulateFragment now) bufs
                  else bufs)
                ++ (parseStreamAux selfModel now
                      (if toolCallsTruthy c.delta.toolCalls then
                        (c.delta.toolCalls.getD []).foldl (accumulateFragment now) bufs
                      else bufs) rest).1 := by
            simp [parseStreamAux]
          obtain ⟨hcount, hflush, hcontent⟩ := chunkOutputs_props selfModel c
            (if toolCallsTruthy c.delta.toolCalls then
              (c.delta.toolCalls.getD []).foldl (accumulateFragment now) bufs
            else bufs)
          obtain ⟨ihcount, ihflush, ihcontent⟩ := parseStreamAux_props selfModel now rest
            (if toolCallsTruthy c.delta.toolCalls then
              (c.delta.toolCalls.getD []).foldl (accumulateFragment now) bufs
            else bufs)
          refine ⟨?_, ?_, ?_⟩
          · rw [hbufs1, List.filter_append, List.length_append]
            have hline : ((StreamLine.chunk c :: rest).filter isFinishToolCallsLine).length
                = (if c.finishReason = some "tool_calls" then 1 else 0)
                  + (rest.filter isFinishToolCallsLine).length := by
              by_cases h : c.finishReason = some "tool_calls"
              · simp [List.filter_cons, isFinishToolCallsLine, h]
                omega
              · simp [List.filter_cons, isFinishToolCallsLine, h]
            rw [hline]
            exact Nat.add_le_add hcount ihcount
          · rw [hbufs1, List.all_append, hflush, ihflush]
            rfl
          · rw [hbufs1, List.all_append, hcontent, ihcontent]
            rfl

theorem parseStreamAux_fragmentChunks (selfModel : String) (now : Nat) :
    ∀ (frs : List (List ToolCallFragment)) (bufs : List (Nat × AssembledToolCall))
      (rest : List StreamLine),
      parseStreamAux selfModel now bufs (frs.map fragmentChunk ++ rest)
        = parseStreamAux selfModel now
            (frs.flatten.foldl (accumulateFragment now) bufs) rest
  | [], bufs, rest => by simp [List.flatten]
  | fr :: frs, bufs, rest => by
      have hstep :
          parseStreamAux selfModel now bufs
              (fragmentChunk fr :: (frs.map fragmentChunk ++ rest))
            = parseStreamAux selfModel now
                (fr.foldl (accumulateFragment now) bufs)
                (frs.map fragmentChunk ++ rest) := by
        cases fr with
        | nil =>
            simp [parseStreamAux, fragmentChunk, toolCallsTruthy, chunkOutputs,
              contentTruthy]
        | cons f fs =>
            simp [parseStreamAux, fragmentChunk, toolCallsTruthy, chunkOutputs,
              contentTruthy]
      rw [List.map_cons, List.cons_append, hstep,
        parseStreamAux_fragmentChunks selfModel now frs _ rest]
      congr 1
      simp [List.flatten, List.foldl_append]

/-- A stream made of fragment deltas followed by the terminal
`tool_calls` delta yields exactly one chunk, carrying the complete
accumulation of every fragment. -/
theorem parseStream_flush_complete (selfModel : String) (now : Nat)
    (frs : List (List ToolCallFragment))
    (hne : accumulateAll now frs.flatten ≠ []) :
    parseStreamResponse selfModel now (frs.map fragmentChunk ++ [finishToolCallsChunk])
      = ([{ content := "", model := selfModel, finishReason := some "tool_calls",
            usage := none,
            toolCalls := some ((accumulateAll now frs.flatten).map Prod.snd) }], none) := by
  unfold parseStreamResponse
  rw [parseStreamAux_fragmentChunks]
  have hb : (accumulateAll now frs.flatten).isEmpty = false := by
    cases h : accumulateAll now frs.flatten with
    | nil => exact absurd h hne
    | cons x xs => rfl
  show parseStreamAux selfModel now (accumulateAll now frs.flatten)
      [finishToolCallsChunk] = _
  simp [parseStreamAux, finishToolCallsChunk, toolCallsTruthy, chunkOutputs,
    contentTruthy, hb]

theorem isPrefixOf_self {α : Type} [DecidableEq α] :
    ∀ l : List α, l.isPrefixOf l = true
  | [] => rfl
  | a :: rest => by simp [List.isPrefixOf, isPrefixOf_self rest]

/-! ## Claims about the streaming parser and the pure helpers -/

/-- C5: the streaming parser buffers tool-call delta fragments in a map
keyed by each fragment's index; the assembled entry for an index takes
its id and type from the first fragment seen for that index (id falling
back to the synthetic id when the key is absent, type falling back to
`function`), its function name is the last name value received for that
index, and its arguments string is the in-order concatenation of every
arguments fragment received for that index. -/
theorem claim_C5_fragment_assembly (now : Nat) (frags : List ToolCallFragment)
    (idx : Nat) :
    (accumulateAll now frags).lookup idx =
      (fragFilter idx frags).head?.map (fun first =>
        { id := first.id.getD (syntheticId idx now)
          type := first.type.getD "function"
          name := ((fragFilter idx frags).filterMap ToolCallFragment.name).getLast?.getD ""
          arguments :=
            concatAll ((fragFilter idx frags).filterMap ToolCallFragment.arguments) }) :=
  accumulateAll_lookup_eq now frags idx

/-- C2 (amended): for every incoming stream, a yielded chunk carries a
non-null `tool_calls` field only when it is the flush emitted at a delta
with `finish_reason == "tool_calls"`; the number of such chunks is
bounded by the number of those deltas (hence at most one for a
well-formed stream, which contains at most one terminal delta); chunks
yielded for intermediate content deltas always have null `tool_calls`;
and for a stream of fragment deltas closed by one terminal delta the
single flushed chunk carries the complete accumulation of every fragment. -/
theorem claim_C2_no_partial_toolcalls (selfModel : String) (now : Nat)
    (lines : List StreamLine) :
    (((parseStreamResponse selfModel now lines).1.filter
        (fun r => r.toolCalls.isSome)).length
      ≤ (lines.filter isFinishToolCallsLine).length)
    ∧ ((parseStreamResponse selfModel now lines).1.all onlyFlushCarriesTools = true)
    ∧ ((parseStreamResponse selfModel now lines).1.all contentChunkNoTools = true)
    ∧ (∀ frs : List (List ToolCallFragment), accumulateAll now frs.flatten ≠ [] →
        parseStreamResponse selfModel now (frs.map fragmentChunk ++ [finishToolCallsChunk])
          = ([{ content := "", model := selfModel, finishReason := some "tool_calls",
                usage := none,
                toolCalls := some ((accumulateAll now frs.flatten).map Prod.snd) }],
             none)) := by
  obtain ⟨h1, h2, h3⟩ := parseStreamAux_props selfModel now lines []
  exact ⟨h1, h2, h3, fun frs hne => parseStream_flush_complete selfModel now frs hne⟩

/-- C2 witness: the properties instantiated on a concrete stream, with
the nonempty-buffer hypothesis of the flush characterization discharged
on a concrete fragment list. -/
theorem claim_C2_no_partial_toolcalls_witness :
    parseStreamResponse "m" 3
        ([[{ index := some 0, id := some "a", type := none,
             name := some "f", arguments := some "x" }]].map fragmentChunk
          ++ [finishToolCallsChunk])
      = ([{ content := "", model := "m", finishReason := some "tool_calls",
            usage := none,
            toolCalls := some ((accumulateAll 3
              [[({ index := some 0, id := some "a", type := none,
                   name := some "f", arguments := some "x" }
                  : ToolCallFragment)]].flatten).map Prod.snd) }], none) :=
  (claim_C2_no_partial_toolcalls "m" 3
      ([[{ index := some 0, id := some "a", type := none,
           name := some "f", arguments := some "x" }]].map fragmentChunk
        ++ [finishToolCallsChunk])).2.2.2
    [[{ index := some 0, id := some "a", type := none,
        name := some "f", arguments := some "x" }]]
    (by decide)

/-- C2 counterexample: a stream whose terminal `tool_calls` delta occurs
twice makes the parser flush twice, so more than one yielded chunk
carries a non-null `tool_calls` field; the claim's unconditional
"at most one" bound is false. -/
theorem claim_C2_counterexample :
    ((parseStreamResponse "m" 0
        [.chunk { model := none, usage := none
                  delta := { content := none,
                             toolCalls := some [{ index := some 0, id := some "a",
                                                  type := none, name := some "f",
                                                  arguments := some "x" }] }
                  finishReason := some "tool_calls" },
         .chunk { model := none, usage := none
                  delta := { content := none, toolCalls := none }
                  finishReason := some "tool_calls" }]).1.filter
      (fun r => r.toolCalls.isSome)).length = 2 := by
  decide

/-- C10 (amended): when the first fragment seen for a tool-call index
omits the id key, the parser fabricates the synthetic id
`call_<index>_<millisecond timestamp>`, which is never empty. (This does
not extend to fragments that carry the id key with an empty value: see
the counterexample, which exhibits an assembled tool call whose id is
empty, so the orchestrator's missing-id branch is reachable.) -/
theorem claim_C10_synthetic_id (now : Nat) (frags : List ToolCallFragment)
    (idx : Nat) (b : AssembledToolCall)
    (hfirst : ∀ f, (fragFilter idx frags).head? = some f → f.id = none)
    (hb : (accumulateAll now frags).lookup idx = some b) :
    b.id = syntheticId idx now ∧ b.id ≠ "" := by
  have h := accumulateAll_lookup_eq now frags idx
  rw [hb] at h
  cases hf : (fragFilter idx frags).head? with
  | none => rw [hf] at h
            exact Option.noConfusion h
  | some f =>
      rw [hf] at h
      have hid : f.id = none := hfirst f hf
      have hbval : b = { id := f.id.getD (syntheticId idx now)
                         type := f.type.getD "function"
                         name := ((fragFilter idx frags).filterMap
                           ToolCallFragment.name).getLast?.getD ""
                         arguments := concatAll ((fragFilter idx frags).filterMap
                           ToolCallFragment.arguments) } := by
        injection h.symm with h2
        exact h2.symm
      refine ⟨?_, ?_⟩
      · rw [hbval]
        show f.id.getD (syntheticId idx now) = syntheticId idx now
        rw [hid]
        rfl
      · rw [hbval]
        show f.id.getD (syntheticId idx now) ≠ ""
        rw [hid]
        exact syntheticId_ne_empty idx now

/-- C10 witness: a single fragment without an id key, at time 7,
assembles to the synthetic id `call_0_7`. -/
theorem claim_C10_synthetic_id_witness :
    ({ id := "call_0_7", type := "function", name := "f", arguments := "x" }
        : AssembledToolCall).id = syntheticId 0 7
    ∧ ({ id := "call_0_7", type := "function", name := "f", arguments := "x" }
        : AssembledToolCall).id ≠ "" :=
  claim_C10_synthetic_id 7 [c10Frag] 0
    { id := "call_0_7", type := "function", name := "f", arguments := "x" }
    (fun f hf => by
      have h2 : some c10Frag = some f := hf
      injection h2 with h3
      rw [← h3]
      rfl)
    (by decide)

/-- C10 counterexample: a fragment that carries the id key with an empty
value assembles to a tool call with an empty id and is emitted by the
parser, so not every tool call assembled by the streaming parser has a
non-empty id. -/
theorem claim_C10_counterexample :
    parseStreamResponse "m" 5
        [.chunk { model := none, usage := none
                  delta := { content := none,
                             toolCalls := some [{ index := some 0, id := some "",
                                                  type := some "function",
                                                  name := some "f",
                                                  arguments := some "x" }] }
                  finishReason := some "tool_calls" }]
      = ([{ content := "", model := "m", finishReason := some "tool_calls",
            usage := none,
            toolCalls := some [{ id := "", type := "function", name := "f",
                                 arguments := "x" }] }], none) := by
  decide

/-- C6 (amended): terminal-intent detection normalizes the text
(lower-cased, surrounding whitespace and trailing exclamation marks and
full stops stripped) and reports terminal exactly when the result starts
with a phrase of the fixed farewell set (an exact match being a prefix
match of itself); the inputs `thanks`, `Thanks!`, `thanks anyway` and
`bye` are all detected as terminal, and so is
`thanks for the info about calculators`, because it starts with the
phrase `thanks`. -/
theorem claim_C6_terminal_intent :
    (∀ m, isTerminalIntent m
      = TERMINAL_INTENTS.any (fun p => pyStartsWith (normalizeIntent m) p))
    ∧ isTerminalIntent "thanks" = true
    ∧ isTerminalIntent "Thanks!" = true
    ∧ isTerminalIntent "thanks anyway" = true
    ∧ isTerminalIntent "bye" = true
    ∧ isTerminalIntent "thanks for the info about calculators" = true := by
  refine ⟨?_, by decide, by decide, by decide, by decide, by decide⟩
  intro m
  simp only [isTerminalIntent]
  by_cases h : TERMINAL_INTENTS.contains (normalizeIntent m)
  · rw [if_pos h]
    have hm : normalizeIntent m ∈ TERMINAL_INTENTS := by
      simpa using h
    exact (List.any_eq_true.mpr
      ⟨normalizeIntent m, hm, isPrefixOf_self (normalizeIntent m).data⟩).symm
  · rw [if_neg h]

/-- C6 counterexample: the input
`thanks for the info about calculators` IS detected as terminal by the
code (the normalized text starts with the phrase `thanks`), contradicting
the claim that it is not. -/
theorem claim_C6_counterexample :
    isTerminalIntent "thanks for the info about calculators" = true := by
  decide

/-- C3: with `max_retries = 3`, a response sequence of two
service-unavailable errors followed by a success makes `generate` perform
exactly 3 HTTP calls and return the success; a response sequence
beginning with an authentication error (resp. an invalid-request error)
makes it perform exactly 1 HTTP call and raise that error without
retrying, whatever the later outcomes would have been. -/
theorem claim_C3_retry_policy :
    (∀ (r : GenResult) (m1 m2 : String),
      generate 3 (fun i =>
        if i = 0 then
          .httpError { statusCode := 503, errorCode := "unknown",
                       errorMessage := m1, retryAfterHeader := none }
        else if i = 1 then
          .httpError { statusCode := 500, errorCode := "unknown",
                       errorMessage := m2, retryAfterHeader := none }
        else .success r)
      = (3, .ok r))
    ∧ (∀ (am : String) (rest : Nat → CallOutcome),
      generate 3 (fun i =>
        if i = 0 then
          .httpError { statusCode := 401, errorCode := "unknown",
                       errorMessage := am, retryAfterHeader := none }
        else rest i)
      = (1, .error (.authentication ("Authentication failed: " ++ am))))
    ∧ (∀ (im : String) (rest : Nat → CallOutcome),
      generate 3 (fun i =>
        if i = 0 then
          .httpError { statusCode := 400, errorCode := "unknown",
                       errorMessage := im, retryAfterHeader := none }
        else rest i)
      = (1, .error (.invalidRequest ("Invalid request: " ++ im)))) := by
  refine ⟨?_, ?_, ?_⟩
  · intro r m1 m2
    simp [generate, generateGo, handleError]
  · intro am rest
    simp [generate, generateGo, handleError]
  · intro im rest
    simp [generate, generateGo, handleError]

/-! ## Lemmas about the conversation model and its claims -/

theorem messagesChronological_tail (a : Message) (l : List Message)
    (h : messagesChronological (a :: l) = true) :
    messagesChronological l = true := by
  cases l with
  | nil => rfl
  | cons b rest =>
      simp only [messagesChronological, Bool.and_eq_true] at h
      exact h.2

theorem messagesChronological_drop (n : Nat) :
    ∀ l : List Message, messagesChronological l = true →
      messagesChronological (l.drop n) = true := by
  induction n with
  | zero => intro l h; simpa using h
  | succ k ih =>
      intro l h
      cases l with
      | nil => rfl
      | cons a rest =>
          rw [List.drop_succ_cons]
          exact ih rest (messagesChronological_tail a rest h)

/-! ## Claims about the orchestrator -/

/-- C1 (code bug): in the non-streaming path, a successfully dispatched
tool call does NOT produce a stored `tool` message carrying the call's
id: `_generate_assistant_response` constructs the tool message without a
`tool_call_id` (even though `_execute_tool_calls` returns one), which the
`Message` model validator rejects, so the whole turn aborts with a
validation error instead of appending the linked tool message — and the
error is re-raised to the caller after a conversation-error event. The
theorem evaluates `process_user_message` at the failing input: a fresh
session, the user text `What is 12 + 585?`, an LLM response carrying one
tool call with id `call_1`, and a plugin that succeeds. -/

theorem claim_C1_toolcall_linkage :
    processUserMessage
      { maxConversationLength := 100, slidingWindowSize := 50,
        enableSummarization := false, systemPrompt := none }
      none "s" "What is 12 + 585?"
      (fun i => if i = 0 then
          .result "" (some [{ id := some "call_1", name := "calculator",
                              arguments := "12 + 585" }])
        else .result "597" none)
      (fun _ _ => .ok "597") rxNone (.ok "s") 0
      = (.error (.valueError "Tool messages must have a tool_call_id"),
         [Event.userMessage "What is 12 + 585?",
          Event.conversationError
            (.valueError "Tool messages must have a tool_call_id")]) := by
  rfl

/-- C4 counterexample: `process_user_message` CAN raise to its caller: an
empty user text fails `Message` validation, and the resulting
`ValidationError` is re-raised (after publishing a conversation-error
event) instead of being converted into an apology string. -/
theorem claim_C4_counterexample :
    (processUserMessage
      { maxConversationLength := 100, slidingWindowSize := 50,
        enableSummarization := false, systemPrompt := none }
      none "s" "" (fun _ => .failure "boom") (fun _ _ => .ok "y") rxNone
      (.ok "s") 0).1
      = .error (.valueError "Message content is required for role: user") := by
  rfl

/-- C4 (amended): an `LLMError` raised during response generation is
converted into the fixed apology string and the turn succeeds; any other
exception is published as a conversation-error event and then RE-RAISED
to the caller (it is not converted into an apology). -/
theorem claim_C4_exception_handling (cfg : OrchConfig)
    (conv0 : Option ConversationState) (c : ConversationState)
    (sessionId userContent m : String) (llm : Nat → LLMOutcome)
    (exec : String → String → ExecOutcome) (rx : String → String → List String)
    (summaryLLM : Except String String) (now : Nat) (u : Message) :
    (∀ e, (processUserMessage cfg conv0 sessionId userContent llm exec rx
              summaryLLM now).1 = .error e →
        Event.conversationError e
          ∈ (processUserMessage cfg conv0 sessionId userContent llm exec rx
              summaryLLM now).2)
    ∧ (conv0 = some c →
       mkMessage Role.user (some userContent) none none none now = .ok u →
       llm 0 = .failure m →
       c.messages.length + 2 ≤ cfg.maxConversationLength →
       (processUserMessage cfg conv0 sessionId userContent llm exec rx
          summaryLLM now).1
         = .ok (apologyReply,
             (c.addMessage u now).addMessage
               { role := Role.assistant, content := some apologyReply,
                 name := none, toolCalls := none, toolCallId := none,
                 timestamp := now } now)) := by
  constructor
  · intro e he
    unfold processUserMessage at he ⊢
    rcases h0 : (match conv0 with
                 | some c => Except.ok c
                 | none => startConversation cfg sessionId now) with _ | conv
    · simp only [h0] at he ⊢
      injection he with h1
      subst h1
      simp
    · simp only [h0] at he ⊢
      rcases h1 : mkMessage Role.user (some userContent) none none none now with _ | userMsg
      · simp only [h1] at he ⊢
        injection he with h2
        subst h2
        simp
      · simp only [h1] at he ⊢
        rcases h2 : generateAssistantResponse llm exec now (conv.addMessage userMsg now)
            with _ | responseContent
        · simp only [h2] at he ⊢
          injection he with h3
          subst h3
          simp
        · simp only [h2] at he ⊢
          rcases h3 : mkMessage Role.assistant (some responseContent) none none none now
              with _ | asstMsg
          · simp only [h3] at he ⊢
            injection he with h4
            subst h4
            simp
          · simp only [h3] at he ⊢
            rcases h4 : manageConversationLength cfg rx summaryLLM now
                ((conv.addMessage userMsg now).addMessage asstMsg now) with _ | conv3
            · simp only [h4] at he ⊢
              injection he with h5
              subst h5
              simp
            · simp only [h4] at he
              exact absurd he (by simp)
  · intro hc hu hllm hlen
    subst hc
    have hgen : generateAssistantResponse llm exec now (c.addMessage u now)
        = .ok apologyReply := by
      unfold generateAssistantResponse generateAssistantGo
      rw [hllm]
    have hasst : mkMessage Role.assistant (some apologyReply) none none none now
        = .ok { role := Role.assistant, content := some apologyReply,
                name := none, toolCalls := none, toolCallId := none,
                timestamp := now } := by
      rfl
    have hlen2 : ((c.addMessage u now).addMessage
        { role := Role.assistant, content := some apologyReply,
          name := none, toolCalls := none, toolCallId := none,
          timestamp := now } now).messages.length ≤ cfg.maxConversationLength := by
      simp only [ConversationState.addMessage, List.length_append, List.length_cons,
        List.length_nil]
      omega
    have hmanage : manageConversationLength cfg rx summaryLLM now
        ((c.addMessage u now).addMessage
          { role := Role.assistant, content := some apologyReply,
            name := none, toolCalls := none, toolCallId := none,
            timestamp := now } now)
        = .ok ((c.addMessage u now).addMessage
            { role := Role.assistant, content := some apologyReply,
              name := none, toolCalls := none, toolCallId := none,
              timestamp := now } now) := by
      unfold manageConversationLength
      rw [if_pos hlen2]
    unfold processUserMessage
    simp only [hu, hgen, hasst, hmanage]

/-- C4 witness: a fresh one-user-message session whose first model call
raises an `LLMError`; the turn returns the apology and stores it. -/
theorem claim_C4_exception_handling_witness :
    (processUserMessage
      { maxConversationLength := 100, slidingWindowSize := 50,
        enableSummarization := false, systemPrompt := none }
      (some { sessionId := "s", messages := [], createdAt := 0, updatedAt := 0,
              awaitingUser := false, activeTask := none, toolCycleCount := 0 })
      "s" "hi" (fun _ => .failure "boom") (fun _ _ => .ok "y") rxNone
      (.ok "s") 0).1
      = .ok (apologyReply,
          (({ sessionId := "s", messages := [], createdAt := 0, updatedAt := 0,
              awaitingUser := false, activeTask := none,
              toolCycleCount := 0 } : ConversationState).addMessage
            { role := Role.user, content := some "hi", name := none,
              toolCalls := none, toolCallId := none, timestamp := 0 } 0).addMessage
            { role := Role.assistant, content := some apologyReply, name := none,
              toolCalls := none, toolCallId := none, timestamp := 0 } 0) :=
  (claim_C4_exception_handling
    { maxConversationLength := 100, slidingWindowSize := 50,
      enableSummarization := false, systemPrompt := none }
    (some { sessionId := "s", messages := [], createdAt := 0, updatedAt := 0,
            awaitingUser := false, activeTask := none, toolCycleCount := 0 })
    { sessionId := "s", messages := [], createdAt := 0, updatedAt := 0,
      awaitingUser := false, activeTask := none, toolCycleCount := 0 }
    "s" "hi" "boom" (fun _ => .failure "boom") (fun _ _ => .ok "y") rxNone
    (.ok "s") 0
    { role := Role.user, content := some "hi", name := none, toolCalls := none,
      toolCallId := none, timestamp := 0 }).2
    rfl rfl rfl (by decide)

/-- C7 (amended): when summarization is disabled (or does not run),
length management of an over-long conversation keeps exactly the most
recent `max_conversation_length` messages: the result is that suffix of
the original list, of length exactly `max_conversation_length`; in
particular 101 messages with limit 100 truncate to the last 100. (When
summarization runs successfully the result is one synthetic system
message followed by the timestamp-sorted selection of the trailing
window, which need not be a suffix — see the counterexample.) -/
theorem claim_C7_length_management (cfg : OrchConfig)
    (rx : String → String → List String) (llmOut : Except String String)
    (now : Nat) (conv : ConversationState)
    (hd : cfg.enableSummarization = false)
    (hlen : cfg.maxConversationLength < conv.messages.length)
    (hpos : 0 < cfg.maxConversationLength)
    (hmax : cfg.maxConversationLength ≤ 1000)
    (hsid : validateSessionId conv.sessionId = .ok conv.sessionId)
    (hchron : messagesChronological conv.messages = true) :
    manageConversationLength cfg rx llmOut now conv
      = .ok { sessionId := conv.sessionId
              messages := conv.messages.drop
                (conv.messages.length - cfg.maxConversationLength)
              createdAt := now, updatedAt := now, awaitingUser := false
              activeTask := none, toolCycleCount := 0 }
    ∧ (conv.messages.drop
        (conv.messages.length - cfg.maxConversationLength)).length
        = cfg.maxConversationLength
    ∧ conv.messages.drop (conv.messages.length - cfg.maxConversationLength)
        <:+ conv.messages := by
  have hlen2 : (conv.messages.drop
      (conv.messages.length - cfg.maxConversationLength)).length
      = cfg.maxConversationLength := by
    rw [List.length_drop]
    omega
  refine ⟨?_, hlen2, List.drop_suffix _ _⟩
  have hvm : validateMessages (conv.messages.drop
      (conv.messages.length - cfg.maxConversationLength))
      = .ok (conv.messages.drop
          (conv.messages.length - cfg.maxConversationLength)) := by
    by_cases he : (conv.messages.drop
        (conv.messages.length - cfg.maxConversationLength)).isEmpty
    · unfold validateMessages
      rw [if_pos he]
    · unfold validateMessages
      rw [if_neg he]
      rw [messagesChronological_drop _ conv.messages hchron]
      simp only [Bool.not_true, Bool.false_eq_true, if_false]
      rw [if_neg (by omega)]
  have hmk : mkConversationState conv.sessionId
      (conv.messages.drop (conv.messages.length - cfg.maxConversationLength)) now
      = .ok { sessionId := conv.sessionId
              messages := conv.messages.drop
                (conv.messages.length - cfg.maxConversationLength)
              createdAt := now, updatedAt := now, awaitingUser := false
              activeTask := none, toolCycleCount := 0 } := by
    unfold mkConversationState
    rw [hsid]
    show (validateMessages _).bind _ = _
    rw [hvm]
    rfl
  have hkeep : min cfg.maxConversationLength conv.messages.length
      = cfg.maxConversationLength := by omega
  have hslice : pySliceLast (min cfg.maxConversationLength conv.messages.length)
      conv.messages
      = conv.messages.drop (conv.messages.length - cfg.maxConversationLength) := by
    unfold pySliceLast
    rw [hkeep, if_neg (by omega)]
  have htr : truncateConversation cfg.maxConversationLength conv now
      = .ok { sessionId := conv.sessionId
              messages := conv.messages.drop
                (conv.messages.length - cfg.maxConversationLength)
              createdAt := now, updatedAt := now, awaitingUser := false
              activeTask := none, toolCycleCount := 0 } := by
    show (match mkConversationState conv.sessionId
        (pySliceLast (min cfg.maxConversationLength conv.messages.length)
          conv.messages) now with
      | Except.error m => Except.error (PyExn.valueError m)
      | Except.ok st => Except.ok st) = _
    rw [hslice, hmk]
  unfold manageConversationLength
  rw [if_neg (by omega), hd]
  simpa using htr

/-- C7 witness: the scenario of the claim — 101 messages, limit 100,
summarization disabled — yields exactly the last 100 original messages. -/
theorem claim_C7_length_management_witness :
    manageConversationLength
      { maxConversationLength := 100, slidingWindowSize := 50,
        enableSummarization := false, systemPrompt := none }
      rxNone (.ok "s") 0 c7Conv
      = .ok { sessionId := "s", messages := c7Msgs.drop 1, createdAt := 0,
              updatedAt := 0, awaitingUser := false, activeTask := none,
              toolCycleCount := 0 }
    ∧ (c7Msgs.drop 1).length = 100
    ∧ c7Msgs.drop 1 <:+ c7Msgs := by
  have h := claim_C7_length_management
    { maxConversationLength := 100, slidingWindowSize := 50,
      enableSummarization := false, systemPrompt := none }
    rxNone (.ok "s") 0 c7Conv rfl (by decide) (by decide) (by decide) rfl
    (by decide)
  exact h

set_option maxRecDepth 40000 in
/-- C7 counterexample: with summarization enabled, the same 101-message
conversation (limit 100) is summarized into 15 messages that are NOT a
suffix of the original list — not even after removing the synthetic
prefix message — because `_select_recent_messages` keeps only the last
10 user and last 5 assistant messages of the window and re-sorts them,
skipping a user message that sits between kept messages. -/
theorem claim_C7_counterexample :
    manageConversationLength
      { maxConversationLength := 100, slidingWindowSize := 50,
        enableSummarization := true, systemPrompt := none }
      rxNone (.ok "s") 0 c7Conv = .ok c7Result
    ∧ c7Result.messages.length = 15
    ∧ ¬ c7Result.messages <:+ c7Conv.messages
    ∧ ¬ c7Result.messages.drop 1 <:+ c7Conv.messages := by
  refine ⟨rfl, rfl, ?_, ?_⟩
  · intro hsuf
    have heq := List.suffix_iff_eq_drop.mp hsuf
    exact absurd heq (by decide)
  · intro hsuf
    have heq := List.suffix_iff_eq_drop.mp hsuf
    exact absurd heq (by decide)

/-- C8 (amended): context-window selection is a pure function of the
conversation: with a positive window size, it returns all messages when
the count is within the window, and otherwise every system message in
original order followed by the most recent `sliding_window_size`
non-system messages; calling it twice yields identical results. (With a
window size of zero the Python slice `[-0:]` keeps ALL non-system
messages instead of none — see the counterexample.) -/
theorem claim_C8_window_selection (w : Nat) (conv : ConversationState)
    (hw : 0 < w) :
    prepareContextMessages w conv
      = (selectContextMessages w conv.messages).map formatMessage
    ∧ (conv.messages.length ≤ w →
        selectContextMessages w conv.messages = conv.messages)
    ∧ (w < conv.messages.length →
        selectContextMessages w conv.messages
          = conv.messages.filter (fun m => decide (m.role = Role.system))
            ++ (conv.messages.filter
                  (fun m => decide (¬ m.role = Role.system))).drop
                ((conv.messages.filter
                    (fun m => decide (¬ m.role = Role.system))).length - w))
    ∧ prepareContextMessages w conv = prepareContextMessages w conv := by
  refine ⟨rfl, ?_, ?_, rfl⟩
  · intro hle
    unfold selectContextMessages
    rw [if_pos hle]
  · intro hgt
    unfold selectContextMessages
    rw [if_neg (by omega)]
    unfold pySliceLast
    rw [if_neg (by omega)]

/-- C8 witness: a one-message conversation inside a 50-message window is
sent in full. -/
theorem claim_C8_window_selection_witness :
    selectContextMessages 50 c8Conv.messages = c8Conv.messages :=
  (claim_C8_window_selection 50 c8Conv (by decide)).2.1 (by decide)

/-- C8 counterexample: with `sliding_window_size = 0` and one (user)
message, the claimed policy returns no non-system messages, but the code
returns the message — the Python slice `regular_messages[-0:]` keeps the
whole list. -/
theorem claim_C8_counterexample :
    prepareContextMessages 0 c8Conv
      = [{ role := Role.user, content := some "x", toolCalls := none,
           toolCallId := none, name := none }]
    ∧ prepareContextMessages 0 c8Conv ≠ [] := by
  refine ⟨rfl, ?_⟩
  decide

/-- C9: for a conversation longer than `max_conversation_length` with
summarization enabled, if producing the summary raises any exception
(context extraction, the model call path, or summary construction),
length management returns the plain truncation of the same conversation;
the exception does not propagate out of `_manage_conversation_length`. -/
theorem claim_C9_summarization_fallback (cfg : OrchConfig)
    (rx : String → String → List String) (llmOut : Except String String)
    (now : Nat) (conv : ConversationState) (e : PyExn)
    (hen : cfg.enableSummarization = true)
    (hlen : cfg.maxConversationLength < conv.messages.length)
    (herr : summarizeConversation rx llmOut now conv = .error e) :
    manageConversationLength cfg rx llmOut now conv
      = truncateConversation cfg.maxConversationLength conv now := by
  have hatt : (match summarizationAttempt rx llmOut now conv with
               | .ok r => r
               | .error _ => none) = (none : Option ConversationState) := by
    unfold summarizationAttempt
    by_cases hs : shouldSummarize conv.messages
    · rw [if_pos hs, herr]
    · rw [if_neg hs]
  unfold manageConversationLength
  rw [if_neg (by omega), hen]
  show (match (match summarizationAttempt rx llmOut now conv with
               | Except.ok r => r
               | Except.error _ => none) with
        | some st => Except.ok st
        | none => truncateConversation cfg.maxConversationLength conv now)
      = truncateConversation cfg.maxConversationLength conv now
  rw [hatt]

/-- C9 witness: a 70-message conversation over a 69-message limit whose
history contains an assistant tool-call message with `None` content; the
file-context extraction raises on it, and length management falls back
to plain truncation. -/
theorem claim_C9_summarization_fallback_witness :
    manageConversationLength
      { maxConversationLength := 69, slidingWindowSize := 50,
        enableSummarization := true, systemPrompt := none }
      rxNone (.ok "s") 0 c9Conv
      = truncateConversation 69 c9Conv 0 :=
  claim_C9_summarization_fallback
    { maxConversationLength := 69, slidingWindowSize := 50,
      enableSummarization := true, systemPrompt := none }
    rxNone (.ok "s") 0 c9Conv (.attributeError "findall of NoneType")
    rfl (by decide) rfl

end TerminalGPT

